import Mathlib

/-!
Shallow embedding of the odr2lanelet2 OpenDRIVE-to-Lanelet2 conversor
(src/odr2lanelet2.py, src/bridge.py, src/lanelet2/primitive.py,
src/lanelet2/lanelet2_map.py) together with theorems checking the
natural-language specification against it.

Modelling conventions:
* Python floats are modelled as exact rationals for coordinates and as real
  numbers where transcendental functions (atan2, sqrt) enter.
* Python dicts keyed by uid are modelled as insertion-ordered association
  lists; dict subscript failures (KeyError and friends) are modelled with
  Except.
* The CARLA lane-graph provider (src/opendrive/odr_map.py wraps the external
  CARLA map object) is modelled as a structure of oracle functions OdrMap;
  the fixed-step waypoint iteration done through waypoint.next is modelled
  by the pre-materialised chain of visited waypoints.
* logging.warning calls are modelled by returning the warning data.
-/

namespace Odr2Lanelet2

/-- A 3-d location (carla.Location): exact rational coordinates. -/
structure Location where
  x : ℚ
  y : ℚ
  z : ℚ
deriving DecidableEq

/-- A CARLA lane-marking descriptor. The source compares
carla_marking.type against the eleven enum members by name, and any
other value falls through every elif; the type tag is therefore modelled
as an open set of strings. -/
structure LaneMarking where
  type : String
deriving DecidableEq

/-- A waypoint as consumed by the conversor: segment ids, junction flag,
lane markings and the provider-computed left/right border locations
(OdrMap.get_border combines the external transform right-vector and lane
width; it is modelled as an oracle per waypoint and side). -/
structure Waypoint where
  road_id : ℤ
  section_id : ℤ
  lane_id : ℤ
  is_junction : Bool
  left_lane_marking : LaneMarking
  right_lane_marking : LaneMarking
  lborder : Location
  rborder : Location
  loc : Location
deriving DecidableEq

/-- OdrMap.get_border(waypoint, border): the vector is flipped only when
border == "left"; any other string (including the "point" used for stop
lines) selects the right border. -/
def wpBorder (w : Waypoint) (border : String) : Location :=
  if border = "left" then w.lborder else w.rborder

/-- Segment id triple (road_id, section_id, lane_id). -/
abbrev Segment := ℤ × ℤ × ℤ

/-- Attribute values appearing in the maps put on primitives: strings,
rational numbers (ele, local coordinates, height) and uids. -/
inductive AttrVal where
  | s (v : String)
  | q (v : ℚ)
  | n (v : ℕ)
deriving DecidableEq

abbrev Attrs := List (String × AttrVal)

/-- Python dict merge {**a, **b}: keys of a keep their position (values
possibly overridden by b), then the keys of b not present in a follow. -/
def mergeAttrs (a b : Attrs) : Attrs :=
  a.map (fun kv => (kv.1, (((b.find? (fun kv2 => kv2.1 = kv.1)).map Prod.snd)).getD kv.2))
    ++ b.filter (fun kv2 => (a.find? (fun kv => kv.1 = kv2.1)).isNone)

/-- lanelet2.Point (src/lanelet2/primitive.py). -/
structure Point where
  uid : ℕ
  lat : ℚ
  lon : ℚ
  attributes : Attrs
deriving DecidableEq

/-- lanelet2.Linestring. The attributes slot holds the dict passed to the
constructor; Bridge.lanelet2_marking can return Python None, modelled as
the none case. -/
structure Linestring where
  uid : ℕ
  points : List ℕ
  attributes : Option Attrs
deriving DecidableEq

/-- lanelet2.Lanelet. -/
structure Lanelet where
  uid : ℕ
  left : ℕ
  right : ℕ
  regulatory_elements : List ℕ
  attributes : Attrs
deriving DecidableEq

/-- lanelet2.RegulatoryElement: parameters maps role names to uid lists. -/
structure RegElem where
  uid : ℕ
  parameters : List (String × List ℕ)
  attributes : Attrs
deriving DecidableEq

/-- Association-list lookup, modelling dict.get(k, None). -/
def alookup {α : Type} (l : List (ℕ × α)) (k : ℕ) : Option α :=
  (l.find? (fun kv => kv.1 = k)).map Prod.snd

/-- Association-list write d[k] = v: replaces in place, else appends
(Python dicts keep insertion order and update values in place). -/
def aset {α : Type} (l : List (ℕ × α)) (k : ℕ) (v : α) : List (ℕ × α) :=
  if (l.find? (fun kv => kv.1 = k)).isSome then
    l.map (fun kv => if kv.1 = k then (k, v) else kv)
  else l ++ [(k, v)]

/-- Lookup in the Segment to Lanelet index. -/
def slookup (l : List (Segment × ℕ)) (k : Segment) : Option ℕ :=
  (l.find? (fun kv => kv.1 = k)).map Prod.snd

/-- Write to the Segment to Lanelet index. -/
def sset (l : List (Segment × ℕ)) (k : Segment) (v : ℕ) : List (Segment × ℕ) :=
  if (l.find? (fun kv => kv.1 = k)).isSome then
    l.map (fun kv => if kv.1 = k then (k, v) else kv)
  else l ++ [(k, v)]

/-- lanelet2.Lanelet2Map: the four uid-keyed stores. -/
structure L2Map where
  points : List (ℕ × Point)
  linestrings : List (ℕ × Linestring)
  lanelets : List (ℕ × Lanelet)
  regulatory_elements : List (ℕ × RegElem)
deriving DecidableEq

def L2Map.empty : L2Map := ⟨[], [], [], []⟩

/-- Lanelet2Map.add_point: inserts only when the uid is absent, returns
the uid. -/
def addPoint (m : L2Map) (p : Point) : ℕ × L2Map :=
  if (alookup m.points p.uid).isSome then (p.uid, m)
  else (p.uid, { m with points := m.points ++ [(p.uid, p)] })

/-- Lanelet2Map.add_linestring. -/
def addLinestring (m : L2Map) (ls : Linestring) : ℕ × L2Map :=
  (ls.uid, { m with linestrings := aset m.linestrings ls.uid ls })

/-- Lanelet2Map.add_lanelet. -/
def addLanelet (m : L2Map) (ll : Lanelet) : ℕ × L2Map :=
  (ll.uid, { m with lanelets := aset m.lanelets ll.uid ll })

/-- Lanelet2Map.add_regulatory_element. -/
def addRegElem (m : L2Map) (re : RegElem) : ℕ × L2Map :=
  (re.uid, { m with regulatory_elements := aset m.regulatory_elements re.uid re })

/-- Lanelet2Map.get_lanelet_end_points: follows lanelet, border
linestrings and their last point uids. Where Python would raise on a
malformed map (missing lanelet or linestring, empty point list) the model
returns none. -/
def getLaneletEndPoints (m : L2Map) (uid : ℕ) : Option (ℕ × ℕ) := do
  let ll ← alookup m.lanelets uid
  let lls ← alookup m.linestrings ll.left
  let rls ← alookup m.linestrings ll.right
  let a ← lls.points.getLast?
  let b ← rls.points.getLast?
  pure (a, b)

/-- Lanelet2Map.get_lanelet_start_points. -/
def getLaneletStartPoints (m : L2Map) (uid : ℕ) : Option (ℕ × ℕ) := do
  let ll ← alookup m.lanelets uid
  let lls ← alookup m.linestrings ll.left
  let rls ← alookup m.linestrings ll.right
  let a ← lls.points.head?
  let b ← rls.points.head?
  pure (a, b)

/-- One traffic light box (geometry provided by the CARLA world). -/
structure TLBox where
  left : Location
  right : Location
  height : ℚ
  green : Location
  yellow : Location
  red : Location
deriving DecidableEq

/-- One traffic light definition: boxes plus landmark waypoints. -/
structure TrafficLight where
  boxes : List TLBox
  landmarks : List Waypoint

/-- The lane-graph provider (src/opendrive/odr_map.py over the external
CARLA map), modelled as oracle functions. chain gives, per start
waypoint, the materialised sequence of waypoints visited by repeated
single-result next(sampling_distance) calls; the sampler re-checks road
and section ids per element exactly as the source loop condition does. -/
structure OdrMap where
  stdRoads : List ℤ
  paths : List ℤ
  sections : ℤ → List ℤ
  lanes : ℤ → ℤ → List ℤ
  waypoint : ℤ → ℤ → ℤ → Waypoint
  waypointSuccessors : ℤ → ℤ → ℤ → List Waypoint
  segPred : Segment → List Segment
  segSucc : Segment → List Segment
  left : Segment → Option Segment
  right : Segment → Option Segment
  geo : Location → ℚ × ℚ
  chain : Waypoint → List Waypoint
  crosswalks : List (Location × Location × Location × Location)
  trafficLights : List TrafficLight
  segments : List Segment

/-- Conversor state: the uid counter, the growing mesh and the Segment to
Lanelet index (fields of Odr2Lanelet2Conversor). -/
structure ConvState where
  uid : ℕ
  map : L2Map
  odr2lanelet : List (Segment × ℕ)
deriving DecidableEq

/-- Odr2Lanelet2Conversor._next_uid. -/
def nextUid (st : ConvState) : ℕ × ConvState :=
  ({ st with uid := st.uid + 1 }.uid, { st with uid := st.uid + 1 })

/-- Odr2Lanelet2Conversor._create_point. -/
def createPoint (M : OdrMap) (st : ConvState) (location : Location)
    (extra_attributes : Attrs) : Point × ConvState :=
  let (uid, st) := nextUid st
  let g := M.geo location
  let attributes : Attrs :=
    [("ele", .q location.z), ("local_x", .q location.x), ("local_y", .q (-location.y))]
  (⟨uid, g.1, g.2, mergeAttrs attributes extra_attributes⟩, st)

/-! ## Bridge (src/bridge.py) -/

namespace Bridge

/-- Bridge.lanelet2_marking: the elif chain over carla_marking.type. The
Python parameter has_neighbour defaults to False; a marking type matching
none of the eleven branches falls off the end of the function, returning
Python None. -/
def lanelet2_marking (carla_marking : LaneMarking) (has_neighbour : Bool) :
    Option Attrs :=
  let t := carla_marking.type
  if t = "NONE" then some [("type", .s "road_border")]
  else if t = "Other" then some [("type", .s "road_border")]
  else if t = "Broken" then
    some [("type", .s "line_thin"), ("subtype", .s "dashed"),
          ("lane_change", .s (if has_neighbour then "yes" else "no"))]
  else if t = "Solid" then some [("type", .s "line_thin"), ("subtype", .s "solid")]
  else if t = "SolidSolid" then some [("type", .s "line_thin"), ("subtype", .s "solid_solid")]
  else if t = "SolidBroken" then
    some [("type", .s "line_thin"), ("subtype", .s "solid_dashed"),
          ("lane_change:right", .s "no"),
          ("lane_change:left", .s (if has_neighbour then "yes" else "no"))]
  else if t = "BrokenSolid" then
    some [("type", .s "line_thin"), ("subtype", .s "dashed_solid"),
          ("lane_change:right", .s (if has_neighbour then "yes" else "no")),
          ("lane_change:left", .s "no")]
  else if t = "BrokenBroken" then
    some [("type", .s "line_thin"), ("subtype", .s "dashed"),
          ("lane_change", .s (if has_neighbour then "yes" else "no"))]
  else if t = "BottsDots" then
    some [("type", .s "line_thin"), ("subtype", .s "dashed"),
          ("lane_change", .s (if has_neighbour then "yes" else "no"))]
  else if t = "Grass" then some [("type", .s "line_thin"), ("subtype", .s "solid")]
  else if t = "Curb" then some [("type", .s "line_thin"), ("subtype", .s "solid")]
  else none

end Bridge

/-- The nested helper _create_border_linestring of
_convert_road_to_lanelets: allocates a uid, selects the marking of the
requested side, asks the Bridge (the Python call site passes no
has_neighbour argument, so the default False applies) and overrides with
type virtual on junction waypoints. The linestring is not yet added to
the mesh here. -/
def createBorderLinestring (st : ConvState) (start_waypoint : Waypoint)
    (points : List ℕ) (border : String) : Linestring × ConvState :=
  let (uid, st) := nextUid st
  let carla_marking :=
    if border = "left" then start_waypoint.left_lane_marking
    else start_waypoint.right_lane_marking
  let attributes := Bridge.lanelet2_marking carla_marking false
  let attributes := if start_waypoint.is_junction then some [("type", .s "virtual")] else attributes
  (⟨uid, points, attributes⟩, st)

/-! ## Lane-adjacency classifier (_is_adjacent) -/

/-- Data of one logging.warning emitted by _is_adjacent: the two segments
that should be adjacent plus the shared predecessor or successor named in
the message. -/
inductive AdjWarn where
  | pred (s1 s2 common : Segment)
  | succ (s1 s2 common : Segment)
deriving DecidableEq

/-- Odr2Lanelet2Conversor._is_adjacent. Returns the boolean together with
the warnings that the source would log. Set intersection of the
predecessor (successor) lists is modelled by filtering; the warning names
the first common element. -/
def isAdjacent (M : OdrMap) (road_id section_id lane_id other_lane_id : ℤ) :
    Bool × List AdjWarn :=
  let direction := lane_id * other_lane_id
  let difference := |lane_id - other_lane_id|
  if direction < 0 ∧ difference > 2 then (false, [])
  else if direction > 0 ∧ difference > 1 then (false, [])
  else
    let preds1 := M.segPred (road_id, section_id, lane_id)
    let preds2 := M.segPred (road_id, section_id, other_lane_id)
    let common_predecessors := preds1.filter (fun p => p ∈ preds2)
    match common_predecessors.head? with
    | some c =>
        (false, [.pred (road_id, section_id, lane_id) (road_id, section_id, other_lane_id) c])
    | none =>
        let succs1 := M.segSucc (road_id, section_id, lane_id)
        let succs2 := M.segSucc (road_id, section_id, other_lane_id)
        let common_successors := succs1.filter (fun p => p ∈ succs2)
        match common_successors.head? with
        | some c =>
            (false, [.succ (road_id, section_id, lane_id) (road_id, section_id, other_lane_id) c])
        | none => (true, [])

/-! ## Geometry: math.atan2, _is_aligned, carla distance -/

section
open Classical

/-- math.atan2(y, x) over the reals (the Python float computation is
modelled exactly over the reals). -/
noncomputable def atan2 (y x : ℝ) : ℝ :=
  if 0 < x then Real.arctan (y / x)
  else if x < 0 then
    (if 0 ≤ y then Real.arctan (y / x) + Real.pi else Real.arctan (y / x) - Real.pi)
  else if 0 < y then Real.pi / 2
  else if y < 0 then -(Real.pi / 2)
  else 0

/-- The nested helper _is_aligned of _create_reference_border: the angle
of each delta vector via atan2, candidate treated as collinear when the
absolute angle difference stays below THRESHOLD_ANGLE = 0.01. -/
noncomputable def is_aligned (loc1 loc2 loc3 : Location) : Bool :=
  let dx1 : ℝ := (loc1.x : ℝ) - (loc2.x : ℝ)
  let dy1 : ℝ := (loc1.y : ℝ) - (loc2.y : ℝ)
  let dx2 : ℝ := (loc2.x : ℝ) - (loc3.x : ℝ)
  let dy2 : ℝ := (loc2.y : ℝ) - (loc3.y : ℝ)
  let angle1 := atan2 dx1 dy1
  let angle2 := atan2 dx2 dy2
  if |angle1 - angle2| < (1 / 100 : ℝ) then true else false

/-- carla.Location.distance: 3-d Euclidean distance. -/
noncomputable def locDist (a b : Location) : ℝ :=
  Real.sqrt ((((a.x - b.x : ℚ) : ℝ)) ^ 2 + (((a.y - b.y : ℚ) : ℝ)) ^ 2
    + (((a.z - b.z : ℚ) : ℝ)) ^ 2)

/-! ## Border Sampler (_create_reference_border) -/

/-- State and output of the sampler loop: the emitted left and right
transform lists plus the final buffers. The candidate slots of the left
and right buffers are filled and cleared together in the source, so they
are carried as one optional pair. -/
structure RefState where
  lout : List Location
  rout : List Location
  lcur : Location
  rcur : Location
  cands : Option (Location × Location)

/-- The while loop of _create_reference_border over the materialised
waypoint chain: stops when the chain ends (next did not return exactly
one waypoint), when the next waypoint leaves the (road_id, section_id)
of the start waypoint, or when an end waypoint is given and the distance
to it drops below the sampling distance; otherwise fills the candidate
buffers on the first pass and runs the lookahead alignment test after
that. -/
noncomputable def refLoop (sd : ℝ) (rid sid : ℤ) (endw : Option Waypoint) :
    Location → Location → Option (Location × Location) → List Waypoint → RefState
  | lcur, rcur, cands, [] => ⟨[], [], lcur, rcur, cands⟩
  | lcur, rcur, cands, w :: rest =>
    if w.road_id = rid ∧ w.section_id = sid then
      if (match endw with
          | some e => locDist w.loc e.loc < sd
          | none => False) then ⟨[], [], lcur, rcur, cands⟩
      else
        match cands with
        | none => refLoop sd rid sid endw lcur rcur (some (w.lborder, w.rborder)) rest
        | some (lcand, rcand) =>
          let lAligned := is_aligned lcur lcand w.lborder
          let rAligned := is_aligned rcur rcand w.rborder
          let res := refLoop sd rid sid endw
            (if lAligned then lcur else lcand)
            (if rAligned then rcur else rcand)
            (some (w.lborder, w.rborder)) rest
          ⟨(if lAligned then [] else [lcand]) ++ res.lout,
           (if rAligned then [] else [rcand]) ++ res.rout,
           res.lcur, res.rcur, res.cands⟩
    else ⟨[], [], lcur, rcur, cands⟩

/-- Odr2Lanelet2Conversor._create_reference_border: runs the loop from
the start waypoint borders and finally tests a pending candidate against
the end waypoint borders. -/
noncomputable def createReferenceBorder (sd : ℝ) (M : OdrMap) (start_waypoint : Waypoint)
    (end_waypoint : Option Waypoint) : List Location × List Location :=
  let res := refLoop sd start_waypoint.road_id start_waypoint.section_id end_waypoint
    start_waypoint.lborder start_waypoint.rborder none (M.chain start_waypoint)
  match end_waypoint, res.cands with
  | some e, some (lcand, rcand) =>
      (res.lout ++ (if is_aligned res.lcur lcand e.lborder then [] else [lcand]),
       res.rout ++ (if is_aligned res.rcur rcand e.rborder then [] else [rcand]))
  | _, _ => (res.lout, res.rout)

end

/-- Creates one conversor point per reference-border location, in order
(the list comprehension in lines 160, 164, 198, 238 of the source). -/
def createPoints (M : OdrMap) : ConvState → List Location → List Point × ConvState
  | st, [] => ([], st)
  | st, loc :: rest =>
    let (p, st) := createPoint M st loc []
    let (ps, st) := createPoints M st rest
    (p :: ps, st)

/-- Builds the point list of one border side of a lanelet: the start link
point if resolved (otherwise a fresh point at the start waypoint border),
the reference border points, then the end link point or a fresh point at
the end waypoint border. This is the repeated left_points/right_points
construction of _convert_road_to_lanelets. -/
def sidePoints (M : OdrMap) (st : ConvState) (pre : Option Point)
    (ref : List Location) (succ : Option Point)
    (startB endB : Location) : List Point × ConvState :=
  let (p0, st) := match pre with
    | none => createPoint M st startB []
    | some p => (p, st)
  let (mids, st) := createPoints M st ref
  let (pe, st) := match succ with
    | none => createPoint M st endB []
    | some p => (p, st)
  (p0 :: mids ++ [pe], st)

/-- Adds each point of a side to the mesh and collects the uids
(list(map(add_point, points))). -/
def addPoints : L2Map → List Point → List ℕ × L2Map
  | m, [] => ([], m)
  | m, p :: ps =>
    let (u, m) := addPoint m p
    let (us, m) := addPoints m ps
    (u :: us, m)

/-! ## Link-Point Resolver (_get_link_points) -/

/-- The early-exit for loop over predecessors or successors inside the
corner searches: runs the search on each element, threading the visited
set, and stops at the first truthy point. -/
def searchFold (f : Segment → List Segment → Option ℕ × List Segment) :
    List Segment → List Segment → Option ℕ × List Segment
  | [], vis => (none, vis)
  | p :: ps, vis =>
    match f p vis with
    | (some pt, vis) => (some pt, vis)
    | (none, vis) => searchFold f ps vis

mutual

/-- The nested _get_start_left of _get_link_points. The shared mutable
visited set is threaded explicitly; the fuel argument only serves Lean
termination (the visited set bounds the recursion depth in the source).
Map accesses that Python performs without a None check return none here
when absent. -/
def getStartLeft (M : OdrMap) (st : ConvState) :
    ℕ → Segment → List Segment → Option ℕ × List Segment
  | 0, _, vis => (none, vis)
  | fuel + 1, seg, vis =>
    if seg ∈ vis then (none, vis)
    else
      let vis := seg :: vis
      let predecessors := M.segPred seg
      match predecessors.filter (fun p => (slookup st.odr2lanelet p).isSome) with
      | p0 :: _ =>
        (((slookup st.odr2lanelet p0).bind (getLaneletEndPoints st.map)).map Prod.fst, vis)
      | [] =>
        match searchFold (fun p v => getEndLeft M st fuel p v) predecessors vis with
        | (some pt, vis) => (some pt, vis)
        | (none, vis) =>
          match M.left seg with
          | some lft =>
            if seg.2.2 * lft.2.2 > 0 then getStartRight M st fuel lft vis
            else getEndLeft M st fuel lft vis
          | none => (none, vis)

/-- The nested _get_start_right: same-direction right neighbour by
construction (the source asserts the sign match). -/
def getStartRight (M : OdrMap) (st : ConvState) :
    ℕ → Segment → List Segment → Option ℕ × List Segment
  | 0, _, vis => (none, vis)
  | fuel + 1, seg, vis =>
    if seg ∈ vis then (none, vis)
    else
      let vis := seg :: vis
      let predecessors := M.segPred seg
      match predecessors.filter (fun p => (slookup st.odr2lanelet p).isSome) with
      | p0 :: _ =>
        (((slookup st.odr2lanelet p0).bind (getLaneletEndPoints st.map)).map Prod.snd, vis)
      | [] =>
        match searchFold (fun p v => getEndRight M st fuel p v) predecessors vis with
        | (some pt, vis) => (some pt, vis)
        | (none, vis) =>
          match M.right seg with
          | some rgt => getStartLeft M st fuel rgt vis
          | none => (none, vis)

/-- The nested _get_end_left. -/
def getEndLeft (M : OdrMap) (st : ConvState) :
    ℕ → Segment → List Segment → Option ℕ × List Segment
  | 0, _, vis => (none, vis)
  | fuel + 1, seg, vis =>
    if seg ∈ vis then (none, vis)
    else
      let vis := seg :: vis
      let successors := M.segSucc seg
      match successors.filter (fun p => (slookup st.odr2lanelet p).isSome) with
      | p0 :: _ =>
        (((slookup st.odr2lanelet p0).bind (getLaneletStartPoints st.map)).map Prod.fst, vis)
      | [] =>
        match searchFold (fun p v => getStartLeft M st fuel p v) successors vis with
        | (some pt, vis) => (some pt, vis)
        | (none, vis) =>
          match M.left seg with
          | some lft =>
            if seg.2.2 * lft.2.2 > 0 then getEndRight M st fuel lft vis
            else getStartLeft M st fuel lft vis
          | none => (none, vis)

/-- The nested _get_end_right. -/
def getEndRight (M : OdrMap) (st : ConvState) :
    ℕ → Segment → List Segment → Option ℕ × List Segment
  | 0, _, vis => (none, vis)
  | fuel + 1, seg, vis =>
    if seg ∈ vis then (none, vis)
    else
      let vis := seg :: vis
      let successors := M.segSucc seg
      match successors.filter (fun p => (slookup st.odr2lanelet p).isSome) with
      | p0 :: _ =>
        (((slookup st.odr2lanelet p0).bind (getLaneletStartPoints st.map)).map Prod.snd, vis)
      | [] =>
        match searchFold (fun p v => getStartRight M st fuel p v) successors vis with
        | (some pt, vis) => (some pt, vis)
        | (none, vis) =>
          match M.right seg with
          | some rgt => getEndLeft M st fuel rgt vis
          | none => (none, vis)

end

/-- Odr2Lanelet2Conversor._get_link_points: the four top-level corner
queries, each starting from a cleared visited set, then the point lookups
(get_point of a possibly-None uid gives None). Returned as
((start-left, start-right), (end-left, end-right)). -/
def getLinkPoints (M : OdrMap) (st : ConvState) (road_id section_id lane_id : ℤ) :
    (Option Point × Option Point) × (Option Point × Option Point) :=
  let fuel := M.segments.length + 1
  let lstart := (getStartLeft M st fuel (road_id, section_id, lane_id) []).1
  let rstart := (getStartRight M st fuel (road_id, section_id, lane_id) []).1
  let lend := (getEndLeft M st fuel (road_id, section_id, lane_id) []).1
  let rend := (getEndRight M st fuel (road_id, section_id, lane_id) []).1
  ((lstart.bind (alookup st.map.points), rstart.bind (alookup st.map.points)),
   (lend.bind (alookup st.map.points), rend.bind (alookup st.map.points)))

/-! ## Mesh Builder (_convert_road_to_lanelets) -/

/-- Python exceptions that can escape the conversion: the IndexError of
get_waypoint_successors(...)[0] on an empty list, the KeyError of
self._odr2lanelet[segment] on a missing key, and the AttributeError of
calling a method on None. -/
inductive ConvErr where
  | indexError
  | keyError (segment : Segment)
  | attributeError
deriving DecidableEq

/-- The loop-carried locals of _convert_road_to_lanelets: last_edges,
last_linestrings and last_lane_id. -/
structure Prev where
  edges : List ℕ × List ℕ
  lins : ℕ × ℕ
  laneId : ℤ
deriving DecidableEq

/-- Result of processing one lane: the new loop-carried locals, the uid
of the created lanelet and the updated conversor state. -/
structure LaneOut where
  prev : Prev
  laneletUid : ℕ
  st : ConvState
deriving DecidableEq

/-- The fixed attribute map placed on every road lanelet. -/
def roadLaneletAttrs : Attrs :=
  [("type", .s "lanelet"), ("subtype", .s "road"), ("location", .s "urban"),
   ("one_way", .s "yes"), ("speed_limit", .s "30"), ("turn_direction", .s "")]

/-- The fresh branch of the lane loop (idx == 0 or not adjacent): both
border point lists are built, inserted and turned into two new
Linestrings. Returns (edges, linestrings, state) exactly as the loop
locals. -/
noncomputable def buildFresh (M : OdrMap) (start_waypoint end_waypoint : Waypoint)
    (pre succ : Option Point × Option Point) (reference_border : List Location × List Location)
    (st : ConvState) : (List ℕ × List ℕ) × (ℕ × ℕ) × ConvState :=
  let (left_points, st) := sidePoints M st pre.1 reference_border.1 succ.1
    (wpBorder start_waypoint "left") (wpBorder end_waypoint "left")
  let (right_points, st) := sidePoints M st pre.2 reference_border.2 succ.2
    (wpBorder start_waypoint "right") (wpBorder end_waypoint "right")
  let (left_edge, mp) := addPoints st.map left_points
  let (right_edge, mp) := addPoints mp right_points
  let st := { st with map := mp }
  let edges := (left_edge, right_edge)
  let (left_linestring, st) := createBorderLinestring st start_waypoint edges.1 "left"
  let (right_linestring, st) := createBorderLinestring st start_waypoint edges.2 "right"
  let (lu, mp) := addLinestring st.map left_linestring
  let (ru, mp) := addLinestring mp right_linestring
  (edges, (lu, ru), { st with map := mp })

/-- The shared branch of the lane loop (adjacent to the previously
processed lane): for a negative lane id only the left border is built and
the right border reuses the previous left border (same Linestring); for a
positive lane id only the right border is built and the left border is
the previous left border reversed as a new Linestring when lane_id == 1,
or the previous right border Linestring unchanged otherwise. Note that
the left border linestring object is constructed (consuming a uid) even
when it is discarded for lane_id > 1, exactly as in the source. -/
noncomputable def buildShared (M : OdrMap) (lane_id : ℤ)
    (start_waypoint end_waypoint : Waypoint)
    (pre succ : Option Point × Option Point) (reference_border : List Location × List Location)
    (p : Prev) (st : ConvState) : (List ℕ × List ℕ) × (ℕ × ℕ) × ConvState :=
  if lane_id < 0 then
    let (left_points, st) := sidePoints M st pre.1 reference_border.1 succ.1
      (wpBorder start_waypoint "left") (wpBorder end_waypoint "left")
    let (left_edge, mp) := addPoints st.map left_points
    let st := { st with map := mp }
    let edges := (left_edge, p.edges.1)
    let (left_linestring, st) := createBorderLinestring st start_waypoint edges.1 "left"
    let (lu, mp) := addLinestring st.map left_linestring
    (edges, (lu, p.lins.1), { st with map := mp })
  else
    let (right_points, st) := sidePoints M st pre.2 reference_border.2 succ.2
      (wpBorder start_waypoint "right") (wpBorder end_waypoint "right")
    let (right_edge, mp) := addPoints st.map right_points
    let st := { st with map := mp }
    let edges := ((if lane_id = 1 then p.edges.1.reverse else p.edges.2), right_edge)
    let (left_linestring, st) := createBorderLinestring st start_waypoint edges.1 "left"
    let (right_linestring, st) := createBorderLinestring st start_waypoint edges.2 "right"
    let (lu, mp) :=
      if lane_id = 1 then addLinestring st.map left_linestring
      else (p.lins.2, st.map)
    let (ru, mp) := addLinestring mp right_linestring
    (edges, (lu, ru), { st with map := mp })

/-- The common tail of the lane loop: create the lanelet over the chosen
border linestrings, insert it and record it in the Segment to Lanelet
index. -/
def finishLane (road_id section_id lane_id : ℤ)
    (built : (List ℕ × List ℕ) × (ℕ × ℕ) × ConvState) : LaneOut :=
  let edges := built.1
  let linestrings := built.2.1
  let st := built.2.2
  let (luid, st) := nextUid st
  let lanelet : Lanelet := ⟨luid, linestrings.1, linestrings.2, [], roadLaneletAttrs⟩
  let (lanelet_uid, mp) := addLanelet st.map lanelet
  let st := { st with map := mp }
  let st := { st with
    odr2lanelet := sset st.odr2lanelet (road_id, section_id, lane_id) lanelet_uid }
  ⟨⟨edges, linestrings, lane_id⟩, lanelet_uid, st⟩

/-- The body of the lane loop of _convert_road_to_lanelets for one lane:
fetches the start waypoint and first waypoint successor (the source
indexes [0], an IndexError when empty), resolves link points, samples
the reference border, then either builds both borders fresh (first lane
of the section or not adjacent to the previously processed lane) or
shares a border with the previous lane, and finally records the lanelet
in the mesh and the Segment to Lanelet index. -/
noncomputable def convertLane (sd : ℝ) (M : OdrMap) (road_id section_id lane_id : ℤ)
    (prev : Option Prev) (st : ConvState) : Except ConvErr LaneOut :=
  let start_waypoint := M.waypoint road_id section_id lane_id
  match M.waypointSuccessors road_id section_id lane_id with
  | [] => .error .indexError
  | end_waypoint :: _ =>
    let lp := getLinkPoints M st road_id section_id lane_id
    let reference_border := createReferenceBorder sd M start_waypoint (some end_waypoint)
    let built :=
      match prev with
      | none => buildFresh M start_waypoint end_waypoint lp.1 lp.2 reference_border st
      | some p =>
        if (isAdjacent M road_id section_id lane_id p.laneId).1 = false then
          buildFresh M start_waypoint end_waypoint lp.1 lp.2 reference_border st
        else
          buildShared M lane_id start_waypoint end_waypoint lp.1 lp.2 reference_border p st
    .ok (finishLane road_id section_id lane_id built)

/-- The section loop: lanes in the order given by the provider (sorted
ascending lane ids), the loop-carried locals starting empty so the first
lane always builds fresh. -/
noncomputable def convertSection (sd : ℝ) (M : OdrMap) (road_id section_id : ℤ)
    (st : ConvState) : Except ConvErr ConvState := do
  let r ← (M.lanes road_id section_id).foldlM
    (fun (acc : Option Prev × ConvState) lane_id => do
      let out ← convertLane sd M road_id section_id lane_id acc.1 acc.2
      pure (some out.prev, out.st)) ((none : Option Prev), st)
  pure r.2

/-- Odr2Lanelet2Conversor._convert_road_to_lanelets over all sections of
one road. -/
noncomputable def convertRoad (sd : ℝ) (M : OdrMap) (road_id : ℤ)
    (st : ConvState) : Except ConvErr ConvState :=
  (M.sections road_id).foldlM (fun st section_id => convertSection sd M road_id section_id st) st

/-! ## Crosswalks and traffic lights -/

/-- Odr2Lanelet2Conversor._convert_crosswalk_to_lanelet. -/
def convertCrosswalk (M : OdrMap) (st : ConvState)
    (cw : Location × Location × Location × Location) : ConvState :=
  let (p1, p2, p3, p4) := cw
  let (pt1, st) := createPoint M st p1 []
  let (u1, mp) := addPoint st.map pt1
  let st := { st with map := mp }
  let (pt4, st) := createPoint M st p4 []
  let (u4, mp) := addPoint st.map pt4
  let st := { st with map := mp }
  let left := [u1, u4]
  let (pt2, st) := createPoint M st p2 []
  let (u2, mp) := addPoint st.map pt2
  let st := { st with map := mp }
  let (pt3, st) := createPoint M st p3 []
  let (u3, mp) := addPoint st.map pt3
  let st := { st with map := mp }
  let right := [u2, u3]
  let (lsu, st) := nextUid st
  let (llsUid, mp) := addLinestring st.map ⟨lsu, left, some [("type", .s "pedestrian_marking")]⟩
  let st := { st with map := mp }
  let (rsu, st) := nextUid st
  let (rlsUid, mp) := addLinestring st.map ⟨rsu, right, some [("type", .s "pedestrian_marking")]⟩
  let st := { st with map := mp }
  let (luid, st) := nextUid st
  let lanelet : Lanelet := ⟨luid, llsUid, rlsUid, [],
    [("type", .s "lanelet"), ("subtype", .s "crosswalk"), ("location", .s "urban"),
     ("one_way", .s "no"), ("speed_limit", .s "10"), ("participant:pedestrian", .s "yes")]⟩
  let (_, mp) := addLanelet st.map lanelet
  { st with map := mp }

/-- The body of the boxes loop of
_convert_traffic_light_to_regulatory_element: one light-box linestring
(two boundary points and the height attribute) and one light-bulbs
linestring (three colored points referring back to the box uid). -/
def tlBoxStep (M : OdrMap) (acc : List ℕ × List ℕ × ConvState) (box : TLBox) :
    List ℕ × List ℕ × ConvState :=
    let (bxs, blbs, st) := acc
    let (lsUid, st) := nextUid st
    let (pl, st) := createPoint M st box.left []
    let (ul, mp) := addPoint st.map pl
    let st := { st with map := mp }
    let (pr, st) := createPoint M st box.right []
    let (ur, mp) := addPoint st.map pr
    let st := { st with map := mp }
    let (light_box, mp) := addLinestring st.map ⟨lsUid, [ul, ur],
      some [("type", .s "traffic_light"), ("subtype", .s "red_yellow_green"),
            ("height", .q box.height)]⟩
    let st := { st with map := mp }
    let (bUid, st) := nextUid st
    let (pg, st) := createPoint M st box.green [("color", .s "green")]
    let (ug, mp) := addPoint st.map pg
    let st := { st with map := mp }
    let (py, st) := createPoint M st box.yellow [("color", .s "yellow")]
    let (uy, mp) := addPoint st.map py
    let st := { st with map := mp }
    let (pr2, st) := createPoint M st box.red [("color", .s "red")]
    let (ur2, mp) := addPoint st.map pr2
    let st := { st with map := mp }
    let (light_bulbs, mp) := addLinestring st.map ⟨bUid, [ug, uy, ur2],
      some [("type", .s "light_bulbs"), ("traffic_light_id", .n light_box)]⟩
    let st := { st with map := mp }
    (bxs ++ [light_box], blbs ++ [light_bulbs], st)

/-- The body of the landmarks loop of
_convert_traffic_light_to_regulatory_element: builds the stop line and
the regulatory element, then attaches it through the Segment to Lanelet
index; a missing index entry is the KeyError of the dict subscript. -/
def tlLandmarkStep (M : OdrMap) (boxes bulbs : List ℕ) (st : ConvState) (wp : Waypoint) :
    Except ConvErr ConvState :=
    let segment : Segment := (wp.road_id, wp.section_id, wp.lane_id)
    let (slUid, st) := nextUid st
    let (pa, st) := createPoint M st (wpBorder wp "left") []
    let (ua, mp) := addPoint st.map pa
    let st := { st with map := mp }
    let (pb, st) := createPoint M st (wpBorder wp "point") []
    let (ub, mp) := addPoint st.map pb
    let st := { st with map := mp }
    let (stop_line, mp) := addLinestring st.map ⟨slUid, [ua, ub], some [("type", .s "stop_line")]⟩
    let st := { st with map := mp }
    let (reUid, st) := nextUid st
    let (regulatory_element, mp) := addRegElem st.map ⟨reUid,
      [("refers", boxes), ("ref_line", [stop_line]), ("light_bulbs", bulbs)],
      [("type", .s "regulatory_element"), ("subtype", .s "traffic_light")]⟩
    let st := { st with map := mp }
    match slookup st.odr2lanelet segment with
    | none => .error (.keyError segment)
    | some luid =>
      match alookup st.map.lanelets luid with
      | none => .error .attributeError
      | some ll =>
        let ll2 := { ll with regulatory_elements := ll.regulatory_elements ++ [regulatory_element] }
        let mp2 := { st.map with lanelets := aset st.map.lanelets luid ll2 }
        .ok { st with map := mp2 }

/-- Odr2Lanelet2Conversor._convert_traffic_light_to_regulatory_element:
the boxes loop followed by the landmarks loop. -/
def convertTrafficLight (M : OdrMap) (tl : TrafficLight) (st : ConvState) :
    Except ConvErr ConvState :=
  let boxed := tl.boxes.foldl (tlBoxStep M) ([], [], st)
  tl.landmarks.foldlM (tlLandmarkStep M boxed.1 boxed.2.1) boxed.2.2

/-- Odr2Lanelet2Conversor.__call__: resets the mesh and the Segment to
Lanelet index but not the uid counter, then processes standard roads,
paths, crosswalks and traffic lights in that order. -/
noncomputable def conversorCall (sd : ℝ) (M : OdrMap) (s : ConvState) :
    Except ConvErr ConvState := do
  let st : ConvState := { s with map := L2Map.empty, odr2lanelet := [] }
  let st ← M.stdRoads.foldlM (fun st r => convertRoad sd M r st) st
  let st ← M.paths.foldlM (fun st r => convertRoad sd M r st) st
  let st := M.crosswalks.foldl (fun st cw => convertCrosswalk M st cw) st
  let st ← M.trafficLights.foldlM (fun st tl => convertTrafficLight M tl st) st
  pure st

/-! ## Concrete fixtures used by witnesses and counterexamples -/

def loc0 : Location := ⟨0, 0, 0⟩

def wp0 : Waypoint := ⟨0, 0, 0, false, ⟨"NONE"⟩, ⟨"NONE"⟩, loc0, loc0, loc0⟩

/-- An empty provider snapshot. -/
def trivMap : OdrMap where
  stdRoads := []
  paths := []
  sections := fun _ => []
  lanes := fun _ _ => []
  waypoint := fun _ _ _ => wp0
  waypointSuccessors := fun _ _ _ => []
  segPred := fun _ => []
  segSucc := fun _ => []
  left := fun _ => none
  right := fun _ => none
  geo := fun _ => (0, 0)
  chain := fun _ => []
  crosswalks := []
  trafficLights := []
  segments := []

/-- A freshly constructed conversor state. -/
def st0 : ConvState := ⟨0, L2Map.empty, []⟩

/-! ## Helper lemmas -/

lemma head?_some_mem {α : Type} {l : List α} {a : α} (h : l.head? = some a) : a ∈ l := by
  cases l with
  | nil => cases h
  | cons x xs =>
    rw [List.head?_cons, Option.some.injEq] at h
    rw [← h]
    exact List.mem_cons_self x xs

lemma filterInter_head_mem {l1 l2 : List Segment} {c : Segment}
    (h : (l1.filter (fun p => p ∈ l2)).head? = some c) : c ∈ l1 ∧ c ∈ l2 := by
  have hc := head?_some_mem h
  have hm := List.mem_filter.mp hc
  exact ⟨hm.1, by simpa using hm.2⟩

lemma filterInter_head_none {l1 l2 : List Segment}
    (h : (l1.filter (fun p => p ∈ l2)).head? = none) : ∀ c ∈ l1, c ∉ l2 := by
  have hnil : l1.filter (fun p => p ∈ l2) = [] := by
    cases hl : l1.filter (fun p => p ∈ l2) with
    | nil => rfl
    | cons x xs => rw [hl] at h; simp at h
  intro c hc hc2
  have : c ∈ l1.filter (fun p => p ∈ l2) := List.mem_filter.mpr ⟨hc, by simpa⟩
  simp [hnil] at this

lemma filterInter_nil {l1 l2 : List Segment}
    (h : ∀ c ∈ l1, c ∉ l2) : l1.filter (fun p => p ∈ l2) = [] := by
  apply List.filter_eq_nil_iff.mpr
  intro a ha
  simpa using h a ha

/-! ## C4: the lane-adjacency arithmetic rule -/

/-- C4: for nonzero lane ids a and b, _is_adjacent returns not-adjacent
when a*b < 0 and |a-b| > 2, not-adjacent when a*b > 0 and |a-b| > 1, and
otherwise, provided the predecessor sets and the successor sets of the
two segments are disjoint, adjacent; in particular it holds on the
instances (-1,-2) true, (1,-1) true and (1,3) false. -/
theorem C4_adjacency_rule (M : OdrMap) (r s a b : ℤ) (ha : a ≠ 0) (hb : b ≠ 0) :
    ((a * b < 0 ∧ 2 < |a - b|) → (isAdjacent M r s a b).1 = false) ∧
    ((0 < a * b ∧ 1 < |a - b|) → (isAdjacent M r s a b).1 = false) ∧
    (¬(a * b < 0 ∧ 2 < |a - b|) → ¬(0 < a * b ∧ 1 < |a - b|) →
      (∀ p ∈ M.segPred (r, s, a), p ∉ M.segPred (r, s, b)) →
      (∀ p ∈ M.segSucc (r, s, a), p ∉ M.segSucc (r, s, b)) →
      (isAdjacent M r s a b).1 = true) ∧
    ((∀ p ∈ M.segPred (r, s, -1), p ∉ M.segPred (r, s, -2)) →
      (∀ p ∈ M.segSucc (r, s, -1), p ∉ M.segSucc (r, s, -2)) →
      (isAdjacent M r s (-1) (-2)).1 = true) ∧
    ((∀ p ∈ M.segPred (r, s, 1), p ∉ M.segPred (r, s, -1)) →
      (∀ p ∈ M.segSucc (r, s, 1), p ∉ M.segSucc (r, s, -1)) →
      (isAdjacent M r s 1 (-1)).1 = true) ∧
    (isAdjacent M r s 1 3).1 = false := by
  have general : ∀ a b : ℤ,
      (¬(a * b < 0 ∧ 2 < |a - b|) → ¬(0 < a * b ∧ 1 < |a - b|) →
        (∀ p ∈ M.segPred (r, s, a), p ∉ M.segPred (r, s, b)) →
        (∀ p ∈ M.segSucc (r, s, a), p ∉ M.segSucc (r, s, b)) →
        (isAdjacent M r s a b).1 = true) := by
    intro a b h1 h2 hp hs
    simp only [isAdjacent, if_neg h1, if_neg h2, filterInter_nil hp, filterInter_nil hs,
      List.head?]
  refine ⟨?_, ?_, general a b, ?_, ?_, ?_⟩
  · intro h
    simp only [isAdjacent, if_pos h]
  · intro h
    by_cases h1 : a * b < 0 ∧ 2 < |a - b|
    · simp only [isAdjacent, if_pos h1]
    · simp only [isAdjacent, if_neg h1, if_pos h]
  · intro hp hs
    exact general (-1) (-2) (by decide) (by decide) hp hs
  · intro hp hs
    exact general 1 (-1) (by decide) (by decide) hp hs
  · simp only [isAdjacent]
    norm_num

/-- Witness for C4 at the three concrete instances from the spec table,
on the empty provider snapshot. -/
theorem C4_adjacency_rule_witness :
    (isAdjacent trivMap 0 0 (-1) (-2)).1 = true ∧
    (isAdjacent trivMap 0 0 1 (-1)).1 = true ∧
    (isAdjacent trivMap 0 0 1 3).1 = false := by
  refine ⟨?_, ?_, ?_⟩
  · exact (C4_adjacency_rule trivMap 0 0 (-1) (-2) (by decide) (by decide)).2.2.2.1
      (by intro p hp; simp [trivMap] at hp) (by intro p hp; simp [trivMap] at hp)
  · exact (C4_adjacency_rule trivMap 0 0 1 (-1) (by decide) (by decide)).2.2.2.2.1
      (by intro p hp; simp [trivMap] at hp) (by intro p hp; simp [trivMap] at hp)
  · exact (C4_adjacency_rule trivMap 0 0 1 3 (by decide) (by decide)).2.2.2.2.2

/-! ## C5: shared predecessor or successor overrides adjacency -/

/-- C5: when the arithmetic rule leaves two lanes provisionally adjacent
but their segment-predecessor sets intersect, or their segment-successor
sets intersect, _is_adjacent returns not-adjacent and logs exactly one
warning naming one common element, and no exception is raised (the
classifier is total and simply returns). -/
theorem C5_shared_link_overrides_adjacency (M : OdrMap) (r s a b : ℤ)
    (h1 : ¬(a * b < 0 ∧ 2 < |a - b|)) (h2 : ¬(0 < a * b ∧ 1 < |a - b|))
    (hshare : (∃ c, c ∈ M.segPred (r, s, a) ∧ c ∈ M.segPred (r, s, b)) ∨
              (∃ c, c ∈ M.segSucc (r, s, a) ∧ c ∈ M.segSucc (r, s, b))) :
    ∃ w, isAdjacent M r s a b = (false, [w]) ∧
      ((∃ c, c ∈ M.segPred (r, s, a) ∧ c ∈ M.segPred (r, s, b) ∧
          w = .pred (r, s, a) (r, s, b) c) ∨
       (∃ c, c ∈ M.segSucc (r, s, a) ∧ c ∈ M.segSucc (r, s, b) ∧
          w = .succ (r, s, a) (r, s, b) c)) := by
  cases hcp : ((M.segPred (r, s, a)).filter (fun p => p ∈ M.segPred (r, s, b))).head? with
  | some c =>
    refine ⟨.pred (r, s, a) (r, s, b) c, ?_, ?_⟩
    · simp only [isAdjacent, if_neg h1, if_neg h2, hcp]
    · obtain ⟨hc1, hc2⟩ := filterInter_head_mem hcp
      exact Or.inl ⟨c, hc1, hc2, rfl⟩
  | none =>
    have hnopred := filterInter_head_none hcp
    have hsucc : ∃ c, c ∈ M.segSucc (r, s, a) ∧ c ∈ M.segSucc (r, s, b) := by
      rcases hshare with ⟨c, hc1, hc2⟩ | h
      · exact absurd hc2 (hnopred c hc1)
      · exact h
    cases hcs : ((M.segSucc (r, s, a)).filter (fun p => p ∈ M.segSucc (r, s, b))).head? with
    | some c =>
      refine ⟨.succ (r, s, a) (r, s, b) c, ?_, ?_⟩
      · simp only [isAdjacent, if_neg h1, if_neg h2, hcp, hcs]
      · obtain ⟨hc1, hc2⟩ := filterInter_head_mem hcs
        exact Or.inr ⟨c, hc1, hc2, rfl⟩
    | none =>
      obtain ⟨c, hc1, hc2⟩ := hsucc
      exact absurd hc2 (filterInter_head_none hcs c hc1)

/-- A snapshot where lanes 1 and 2 of road 0 section 0 share the
predecessor (5, 5, 5). -/
def sharedPredMap : OdrMap :=
  { trivMap with segPred := fun seg =>
      if seg = (0, 0, 1) then [(5, 5, 5)] else if seg = (0, 0, 2) then [(5, 5, 5)] else [] }

/-- Witness for C5: lanes 1 and 2 sharing predecessor (5,5,5) are marked
not adjacent with one warning naming it. -/
theorem C5_shared_link_overrides_adjacency_witness :
    ∃ w, isAdjacent sharedPredMap 0 0 1 2 = (false, [w]) ∧
      ((∃ c, c ∈ sharedPredMap.segPred (0, 0, 1) ∧ c ∈ sharedPredMap.segPred (0, 0, 2) ∧
          w = .pred (0, 0, 1) (0, 0, 2) c) ∨
       (∃ c, c ∈ sharedPredMap.segSucc (0, 0, 1) ∧ c ∈ sharedPredMap.segSucc (0, 0, 2) ∧
          w = .succ (0, 0, 1) (0, 0, 2) c)) :=
  C5_shared_link_overrides_adjacency sharedPredMap 0 0 1 2 (by decide) (by decide)
    (Or.inl ⟨(5, 5, 5), by simp [sharedPredMap, trivMap], by simp [sharedPredMap, trivMap]⟩)

/-! ## C9: the marking table for Grass, Curb and BottsDots -/

/-- C9 counterexample: the code maps Grass and Curb to line_thin/solid,
not road_border, and BottsDots to subtype dashed, not solid, refuting
the claimed table rows. -/
theorem C9_marking_table_cex :
    Bridge.lanelet2_marking ⟨"Grass"⟩ false =
      some [("type", .s "line_thin"), ("subtype", .s "solid")] ∧
    Bridge.lanelet2_marking ⟨"Grass"⟩ false ≠ some [("type", .s "road_border")] ∧
    Bridge.lanelet2_marking ⟨"Curb"⟩ false =
      some [("type", .s "line_thin"), ("subtype", .s "solid")] ∧
    Bridge.lanelet2_marking ⟨"Curb"⟩ false ≠ some [("type", .s "road_border")] ∧
    Bridge.lanelet2_marking ⟨"BottsDots"⟩ false =
      some [("type", .s "line_thin"), ("subtype", .s "dashed"), ("lane_change", .s "no")] := by
  refine ⟨rfl, by decide, rfl, by decide, rfl⟩

/-- C9 amended: the table the code implements: NONE and Other map to
road_border, Grass and Curb to line_thin/solid, BottsDots to
line_thin/dashed with the lane_change flag from has_neighbour. -/
theorem C9_marking_table (hn : Bool) :
    Bridge.lanelet2_marking ⟨"NONE"⟩ hn = some [("type", .s "road_border")] ∧
    Bridge.lanelet2_marking ⟨"Other"⟩ hn = some [("type", .s "road_border")] ∧
    Bridge.lanelet2_marking ⟨"Grass"⟩ hn =
      some [("type", .s "line_thin"), ("subtype", .s "solid")] ∧
    Bridge.lanelet2_marking ⟨"Curb"⟩ hn =
      some [("type", .s "line_thin"), ("subtype", .s "solid")] ∧
    Bridge.lanelet2_marking ⟨"BottsDots"⟩ hn =
      some [("type", .s "line_thin"), ("subtype", .s "dashed"),
            ("lane_change", .s (if hn then "yes" else "no"))] := by
  cases hn <;> exact ⟨rfl, rfl, rfl, rfl, rfl⟩

/-! ## C10: unhandled marking types yield no attribute map -/

/-- C10: a marking type outside the eleven handled cases falls through
every branch of Bridge.lanelet2_marking (Python returns None), and a
border linestring built for it on a non-junction waypoint carries no
attributes. -/
theorem C10_unhandled_marking_none (t : String)
    (h : t ∉ ["NONE", "Other", "Broken", "Solid", "SolidSolid", "SolidBroken",
              "BrokenSolid", "BrokenBroken", "BottsDots", "Grass", "Curb"]) (hn : Bool) :
    Bridge.lanelet2_marking ⟨t⟩ hn = none ∧
    (∀ st w pts, w.is_junction = false → w.left_lane_marking = ⟨t⟩ →
      (createBorderLinestring st w pts "left").1.attributes = none) ∧
    (∀ st w pts, w.is_junction = false → w.right_lane_marking = ⟨t⟩ →
      (createBorderLinestring st w pts "right").1.attributes = none) := by
  simp only [List.mem_cons, List.mem_singleton] at h
  push_neg at h
  obtain ⟨e1, e2, e3, e4, e5, e6, e7, e8, e9, e10, e11, -⟩ := h
  have hball : ∀ b : Bool, Bridge.lanelet2_marking ⟨t⟩ b = none := by
    intro b
    simp only [Bridge.lanelet2_marking, if_neg e1, if_neg e2, if_neg e3, if_neg e4,
      if_neg e5, if_neg e6, if_neg e7, if_neg e8, if_neg e9, if_neg e10, if_neg e11]
  refine ⟨hball hn, ?_, ?_⟩
  · intro st w pts hj hm
    simp [createBorderLinestring, hj, hm, hball]
  · intro st w pts hj hm
    simp [createBorderLinestring, hj, hm, hball]

/-- Witness for C10 at the marking type Custom. -/
theorem C10_unhandled_marking_none_witness :
    Bridge.lanelet2_marking ⟨"Custom"⟩ false = none ∧
    (createBorderLinestring st0 { wp0 with left_lane_marking := ⟨"Custom"⟩ } [1, 2]
      "left").1.attributes = none :=
  ⟨(C10_unhandled_marking_none "Custom" (by decide) false).1,
   (C10_unhandled_marking_none "Custom" (by decide) false).2.1 st0
     { wp0 with left_lane_marking := ⟨"Custom"⟩ } [1, 2] rfl rfl⟩

/-! ## C8: Broken marking and the lane_change flag -/

/-- A snapshot where segment (0,0,-1) has the same-direction left
neighbour (0,0,-2). -/
def neighbourMap : OdrMap :=
  { trivMap with left := fun seg => if seg = (0, 0, -1) then some (0, 0, -2) else none }

/-- The start waypoint of segment (0,0,-1), not in a junction, with a
Broken left lane marking. -/
def w8 : Waypoint := { wp0 with lane_id := -1, left_lane_marking := ⟨"Broken"⟩ }

/-- C8 counterexample: although a same-direction left neighbour exists in
the snapshot, the border linestring the Mesh Builder creates for the
Broken marking carries lane_change no, not yes: the conversor calls
Bridge.lanelet2_marking without the has_neighbour argument, so the
Python default False always applies. -/
theorem C8_lane_change_flag_cex :
    (neighbourMap.left (0, 0, -1) = some (0, 0, -2) ∧ (-1 : ℤ) * (-2) > 0 ∧
      w8.is_junction = false ∧ w8.left_lane_marking = ⟨"Broken"⟩) ∧
    (createBorderLinestring st0 w8 [1, 2] "left").1.attributes =
      some [("type", .s "line_thin"), ("subtype", .s "dashed"), ("lane_change", .s "no")] ∧
    (createBorderLinestring st0 w8 [1, 2] "left").1.attributes ≠
      some [("type", .s "line_thin"), ("subtype", .s "dashed"), ("lane_change", .s "yes")] := by
  refine ⟨⟨by simp [neighbourMap, trivMap], by decide, rfl, rfl⟩, rfl, by decide⟩

/-- C8 amended: Bridge.lanelet2_marking itself maps Broken to lane_change
yes or no according to its has_neighbour parameter, but every border
linestring the Mesh Builder creates for a non-junction Broken marking
carries lane_change no, since the conversor never passes the flag. -/
theorem C8_broken_marking_lane_change (hn : Bool) :
    Bridge.lanelet2_marking ⟨"Broken"⟩ hn =
      some [("type", .s "line_thin"), ("subtype", .s "dashed"),
            ("lane_change", .s (if hn then "yes" else "no"))] ∧
    (∀ st w pts, w.is_junction = false → w.left_lane_marking = ⟨"Broken"⟩ →
      (createBorderLinestring st w pts "left").1.attributes =
        some [("type", .s "line_thin"), ("subtype", .s "dashed"), ("lane_change", .s "no")]) ∧
    (∀ st w pts, w.is_junction = false → w.right_lane_marking = ⟨"Broken"⟩ →
      (createBorderLinestring st w pts "right").1.attributes =
        some [("type", .s "line_thin"), ("subtype", .s "dashed"), ("lane_change", .s "no")]) := by
  refine ⟨by cases hn <;> rfl, ?_, ?_⟩
  · intro st w pts hj hm
    simp [createBorderLinestring, hj, hm, Bridge.lanelet2_marking]
  · intro st w pts hj hm
    simp [createBorderLinestring, hj, hm, Bridge.lanelet2_marking]

/-- Witness for the amended C8 on the concrete Broken waypoint. -/
theorem C8_broken_marking_lane_change_witness :
    Bridge.lanelet2_marking ⟨"Broken"⟩ true =
      some [("type", .s "line_thin"), ("subtype", .s "dashed"), ("lane_change", .s "yes")] ∧
    (createBorderLinestring st0 w8 [3, 4] "left").1.attributes =
      some [("type", .s "line_thin"), ("subtype", .s "dashed"), ("lane_change", .s "no")] :=
  ⟨(C8_broken_marking_lane_change true).1,
   (C8_broken_marking_lane_change false).2.1 st0 w8 [3, 4] rfl rfl⟩

/-! ## C1: a landmark segment missing from the Segment to Lanelet index -/

lemma tlBoxStep_odr2lanelet (M : OdrMap) (acc : List ℕ × List ℕ × ConvState) (box : TLBox) :
    (tlBoxStep M acc box).2.2.odr2lanelet = acc.2.2.odr2lanelet := by
  obtain ⟨bxs, blbs, st⟩ := acc
  rfl

lemma tlBoxFold_odr2lanelet (M : OdrMap) (bs : List TLBox) :
    ∀ acc : List ℕ × List ℕ × ConvState,
      (bs.foldl (tlBoxStep M) acc).2.2.odr2lanelet = acc.2.2.odr2lanelet := by
  induction bs with
  | nil => intro acc; rfl
  | cons b bs ih =>
    intro acc
    rw [List.foldl_cons, ih, tlBoxStep_odr2lanelet]

lemma tlLandmarkStep_error (M : OdrMap) (bxs blbs : List ℕ) (st : ConvState) (wp : Waypoint)
    (h : slookup st.odr2lanelet (wp.road_id, wp.section_id, wp.lane_id) = none) :
    tlLandmarkStep M bxs blbs st wp =
      .error (.keyError (wp.road_id, wp.section_id, wp.lane_id)) := by
  simp only [tlLandmarkStep, createPoint, nextUid, addPoint, addLinestring, addRegElem]
  rw [h]

lemma tlLandmarkStep_ok_odr2lanelet {M : OdrMap} {bxs blbs : List ℕ} {st : ConvState}
    {wp : Waypoint} {st2 : ConvState}
    (h : tlLandmarkStep M bxs blbs st wp = .ok st2) :
    st2.odr2lanelet = st.odr2lanelet := by
  simp only [tlLandmarkStep, createPoint, nextUid, addPoint, addLinestring, addRegElem] at h
  split at h
  · cases h
  · split at h
    · cases h
    · cases h
      rfl

lemma tlLandmarks_error (M : OdrMap) (bxs blbs : List ℕ) :
    ∀ (lms : List Waypoint) (st : ConvState),
      (∃ wp ∈ lms, slookup st.odr2lanelet (wp.road_id, wp.section_id, wp.lane_id) = none) →
      ∃ e, List.foldlM (tlLandmarkStep M bxs blbs) st lms = .error e := by
  intro lms
  induction lms with
  | nil =>
    intro st h
    obtain ⟨wp, hm, -⟩ := h
    cases hm
  | cons l rest ih =>
    intro st h
    rw [List.foldlM_cons]
    cases hstep : tlLandmarkStep M bxs blbs st l with
    | error e => exact ⟨e, rfl⟩
    | ok st2 =>
      obtain ⟨wp, hm, hnone⟩ := h
      rcases List.mem_cons.mp hm with heq | hmem
      · subst heq
        rw [tlLandmarkStep_error M bxs blbs st wp hnone] at hstep
        cases hstep
      · obtain ⟨e, he⟩ := ih st2 ⟨wp, hmem, by rw [tlLandmarkStep_ok_odr2lanelet hstep]; exact hnone⟩
        exact ⟨e, he⟩

/-- C1 amended: whenever some landmark of a traffic light references a
segment absent from the Segment to Lanelet index, the conversion of that
traffic light raises (the dict subscript KeyError of line 733 or an
earlier landmark failure): the attachment is not skipped and the run
aborts. -/
theorem C1_missing_index_error (M : OdrMap) (tl : TrafficLight) (st : ConvState)
    (h : ∃ wp ∈ tl.landmarks,
      slookup st.odr2lanelet (wp.road_id, wp.section_id, wp.lane_id) = none) :
    ∃ e, convertTrafficLight M tl st = .error e := by
  obtain ⟨wp, hmem, hnone⟩ := h
  have hidx := tlBoxFold_odr2lanelet M tl.boxes ([], [], st)
  exact tlLandmarks_error M _ _ tl.landmarks _ ⟨wp, hmem, by rw [hidx]; exact hnone⟩

/-- The landmark waypoint of segment (0, 0, 1). -/
def wpL : Waypoint := { wp0 with lane_id := 1 }

/-- A traffic light with no boxes and the single landmark wpL. -/
def tl1 : TrafficLight := ⟨[], [wpL]⟩

/-- C1 counterexample: on a fresh state whose Segment to Lanelet index is
empty, converting a traffic light whose landmark references segment
(0,0,1) does not skip the attachment with a warning; it raises the
KeyError of the index subscript and the run aborts. -/
theorem C1_missing_index_aborts_cex :
    convertTrafficLight trivMap tl1 st0 = .error (.keyError (0, 0, 1)) := by
  rfl

/-- Witness for the amended C1 at the same concrete input. -/
theorem C1_missing_index_error_witness :
    ∃ e, convertTrafficLight trivMap tl1 st0 = .error e :=
  C1_missing_index_error trivMap tl1 st0 ⟨wpL, List.mem_singleton.mpr rfl, rfl⟩

/-! ## C2: the uid counter across conversion runs -/

/-- A snapshot containing one crosswalk and nothing else. -/
def cwMap : OdrMap :=
  { trivMap with crosswalks := [(⟨0, 0, 0⟩, ⟨0, 1, 0⟩, ⟨1, 1, 0⟩, ⟨1, 0, 0⟩)] }

/-- C2 counterexample: __call__ does not reset the uid counter. Running
the same conversor twice on the same snapshot yields different output:
the first run creates points 1..4 and ends with the counter at 7, the
second run creates points 8..11, so the two runs do not assign the same
uids. -/
theorem C2_uid_not_reset_cex :
    (conversorCall 1 cwMap st0).map (fun s => s.map.points.map Prod.fst) =
      .ok [1, 2, 3, 4] ∧
    (conversorCall 1 cwMap st0).map (fun s => s.uid) = .ok 7 ∧
    ((conversorCall 1 cwMap st0).bind (conversorCall 1 cwMap)).map
      (fun s => s.map.points.map Prod.fst) = .ok [8, 9, 10, 11] ∧
    (conversorCall 1 cwMap st0).map (fun s => s.map.points.map Prod.fst) ≠
      ((conversorCall 1 cwMap st0).bind (conversorCall 1 cwMap)).map
        (fun s => s.map.points.map Prod.fst) := by
  refine ⟨rfl, rfl, rfl, ?_⟩
  intro hc
  have h1 : (conversorCall 1 cwMap st0).map (fun s => s.map.points.map Prod.fst) =
      Except.ok [1, 2, 3, 4] := rfl
  have h3 : ((conversorCall 1 cwMap st0).bind (conversorCall 1 cwMap)).map
      (fun s => s.map.points.map Prod.fst) = Except.ok [8, 9, 10, 11] := rfl
  rw [h1, h3] at hc
  simp at hc

/-- C2 amended: __call__ resets the mesh and the Segment to Lanelet
index but not the uid counter, so the output of a run is a function of
the snapshot and the incoming counter value alone: two invocations that
start from the same counter value (for example two freshly constructed
conversors) produce identical output. -/
theorem C2_output_determined_by_uid (sd : ℝ) (M : OdrMap) (s1 s2 : ConvState)
    (h : s1.uid = s2.uid) :
    conversorCall sd M s1 = conversorCall sd M s2 := by
  obtain ⟨u1, m1, o1⟩ := s1
  obtain ⟨u2, m2, o2⟩ := s2
  simp only at h
  subst h
  rfl

/-- Witness for the amended C2: two states with equal counter but
different mesh and index give identical runs. -/
theorem C2_output_determined_by_uid_witness :
    conversorCall 1 cwMap ⟨5, ⟨[(9, ⟨9, 0, 0, []⟩)], [], [], []⟩, [((1, 1, 1), 3)]⟩ =
      conversorCall 1 cwMap ⟨5, L2Map.empty, []⟩ :=
  C2_output_determined_by_uid 1 cwMap _ _ rfl

/-! ## C6: the sampler on exactly collinear borders -/

/-- The turn angle the sampler computes between two border locations:
atan2 of the delta components, exactly as in _is_aligned. -/
noncomputable def turnAngle (l1 l2 : Location) : ℝ :=
  atan2 ((l1.x : ℝ) - (l2.x : ℝ)) ((l1.y : ℝ) - (l2.y : ℝ))

lemma is_aligned_eq_ite (l1 l2 l3 : Location) :
    is_aligned l1 l2 l3 =
      if |turnAngle l1 l2 - turnAngle l2 l3| < (1 / 100 : ℝ) then true else false := rfl

/-- A triple with turn-angle difference exactly zero is classified
aligned: zero is below the 0.01 threshold. -/
lemma is_aligned_of_angle_eq {l1 l2 l3 : Location}
    (h : turnAngle l1 l2 = turnAngle l2 l3) : is_aligned l1 l2 l3 = true := by
  rw [is_aligned_eq_ite, h, sub_self, abs_zero, if_pos (by norm_num)]

lemma sublist_three {α : Type} {a b c x y z : α} (h : List.Sublist [a, b, c] [x, y, z]) :
    a = x ∧ b = y ∧ c = z := by
  have := h.eq_of_length rfl
  injection this with h1 this
  injection this with h2 this
  injection this with h3 this
  exact ⟨h1, h2, h3⟩

/-- Invariant of the sampler loop when every ordered triple of the border
sequence is classified aligned: no candidate is ever emitted, and the
final buffer holds points of the visited sequence in order. -/
lemma refLoop_all_aligned (sd : ℝ) (rid sid : ℤ) (endw : Option Waypoint)
    (Lt Rt : List Location) :
    ∀ (ws : List Waypoint) (lcur rcur : Location) (cands : Option (Location × Location)),
    (∀ a b c, List.Sublist [a, b, c]
      (lcur :: ((cands.map Prod.fst).toList ++ ws.map (fun w => w.lborder) ++ Lt)) →
      is_aligned a b c = true) →
    (∀ a b c, List.Sublist [a, b, c]
      (rcur :: ((cands.map Prod.snd).toList ++ ws.map (fun w => w.rborder) ++ Rt)) →
      is_aligned a b c = true) →
    (refLoop sd rid sid endw lcur rcur cands ws).lout = [] ∧
    (refLoop sd rid sid endw lcur rcur cands ws).rout = [] ∧
    List.Sublist ((refLoop sd rid sid endw lcur rcur cands ws).lcur ::
      ((refLoop sd rid sid endw lcur rcur cands ws).cands.map Prod.fst).toList)
      (lcur :: ((cands.map Prod.fst).toList ++ ws.map (fun w => w.lborder))) ∧
    List.Sublist ((refLoop sd rid sid endw lcur rcur cands ws).rcur ::
      ((refLoop sd rid sid endw lcur rcur cands ws).cands.map Prod.snd).toList)
      (rcur :: ((cands.map Prod.snd).toList ++ ws.map (fun w => w.rborder))) := by
  intro ws
  induction ws with
  | nil =>
    intro lcur rcur cands _ _
    refine ⟨rfl, rfl, ?_, ?_⟩ <;> simp [refLoop]
  | cons w rest ih =>
    intro lcur rcur cands HL HR
    by_cases hrs : w.road_id = rid ∧ w.section_id = sid
    · by_cases hd : (match endw with
        | some e => locDist w.loc e.loc < sd
        | none => False)
      · -- distance break: nothing emitted, state unchanged
        have heq : refLoop sd rid sid endw lcur rcur cands (w :: rest) =
            ⟨[], [], lcur, rcur, cands⟩ := by
          simp only [refLoop, if_pos hrs, if_pos hd]
        rw [heq]
        exact ⟨rfl, rfl,
          List.cons_sublist_cons.mpr (List.sublist_append_left _ _),
          List.cons_sublist_cons.mpr (List.sublist_append_left _ _)⟩
      · cases cands with
        | none =>
          have heq : refLoop sd rid sid endw lcur rcur none (w :: rest) =
              refLoop sd rid sid endw lcur rcur (some (w.lborder, w.rborder)) rest := by
            simp only [refLoop, if_pos hrs, if_neg hd]
          obtain ⟨h1, h2, h3, h4⟩ := ih lcur rcur (some (w.lborder, w.rborder))
            (fun a b c hs => HL a b c (by
              first
              | exact hs
              | simpa using hs))
            (fun a b c hs => HR a b c (by
              first
              | exact hs
              | simpa using hs))
          rw [heq]
          refine ⟨h1, h2, ?_, ?_⟩
          · first
            | exact h3
            | simpa using h3
          · first
            | exact h4
            | simpa using h4
        | some lr =>
          obtain ⟨lc, rc⟩ := lr
          have la : is_aligned lcur lc w.lborder = true := by
            apply HL
            exact List.cons_sublist_cons.mpr (List.cons_sublist_cons.mpr
              (List.cons_sublist_cons.mpr (List.nil_sublist _)))
          have ra : is_aligned rcur rc w.rborder = true := by
            apply HR
            exact List.cons_sublist_cons.mpr (List.cons_sublist_cons.mpr
              (List.cons_sublist_cons.mpr (List.nil_sublist _)))
          have heq : refLoop sd rid sid endw lcur rcur (some (lc, rc)) (w :: rest) =
              ⟨(refLoop sd rid sid endw lcur rcur (some (w.lborder, w.rborder)) rest).lout,
               (refLoop sd rid sid endw lcur rcur (some (w.lborder, w.rborder)) rest).rout,
               (refLoop sd rid sid endw lcur rcur (some (w.lborder, w.rborder)) rest).lcur,
               (refLoop sd rid sid endw lcur rcur (some (w.lborder, w.rborder)) rest).rcur,
               (refLoop sd rid sid endw lcur rcur (some (w.lborder, w.rborder)) rest).cands⟩ := by
            simp only [refLoop, if_pos hrs, if_neg hd, la, ra, eq_self_iff_true, if_true,
              List.nil_append]
          have hdropL : List.Sublist
              (lcur :: (w.lborder :: rest.map (fun w => w.lborder) ++ Lt))
              (lcur :: (lc :: (w.lborder :: rest.map (fun w => w.lborder)) ++ Lt)) :=
            List.cons_sublist_cons.mpr (by
              rw [List.cons_append]
              exact List.Sublist.cons _ (List.Sublist.refl _))
          have hdropR : List.Sublist
              (rcur :: (w.rborder :: rest.map (fun w => w.rborder) ++ Rt))
              (rcur :: (rc :: (w.rborder :: rest.map (fun w => w.rborder)) ++ Rt)) :=
            List.cons_sublist_cons.mpr (by
              rw [List.cons_append]
              exact List.Sublist.cons _ (List.Sublist.refl _))
          obtain ⟨h1, h2, h3, h4⟩ := ih lcur rcur (some (w.lborder, w.rborder))
            (fun a b c hs => by
              have hs2 : List.Sublist [a, b, c]
                  (lcur :: (w.lborder :: rest.map (fun w => w.lborder) ++ Lt)) := by
                first
                | exact hs
                | simpa using hs
              apply HL a b c
              have := hs2.trans hdropL
              first
              | exact this
              | simpa using this)
            (fun a b c hs => by
              have hs2 : List.Sublist [a, b, c]
                  (rcur :: (w.rborder :: rest.map (fun w => w.rborder) ++ Rt)) := by
                first
                | exact hs
                | simpa using hs
              apply HR a b c
              have := hs2.trans hdropR
              first
              | exact this
              | simpa using this)
          rw [heq]
          refine ⟨h1, h2, ?_, ?_⟩
          · have h3b : List.Sublist ((refLoop sd rid sid endw lcur rcur
                (some (w.lborder, w.rborder)) rest).lcur ::
                ((refLoop sd rid sid endw lcur rcur
                  (some (w.lborder, w.rborder)) rest).cands.map Prod.fst).toList)
                (lcur :: (w.lborder :: rest.map (fun w => w.lborder))) := by
              first
              | exact h3
              | simpa using h3
            refine h3b.trans ?_
            exact List.cons_sublist_cons.mpr (List.Sublist.cons _ (List.Sublist.refl _))
          · have h4b : List.Sublist ((refLoop sd rid sid endw lcur rcur
                (some (w.lborder, w.rborder)) rest).rcur ::
                ((refLoop sd rid sid endw lcur rcur
                  (some (w.lborder, w.rborder)) rest).cands.map Prod.snd).toList)
                (rcur :: (w.rborder :: rest.map (fun w => w.rborder))) := by
              first
              | exact h4
              | simpa using h4
            refine h4b.trans ?_
            exact List.cons_sublist_cons.mpr (List.Sublist.cons _ (List.Sublist.refl _))
    · have heq : refLoop sd rid sid endw lcur rcur cands (w :: rest) =
          ⟨[], [], lcur, rcur, cands⟩ := by
        simp only [refLoop, if_neg hrs]
      rw [heq]
      exact ⟨rfl, rfl,
        List.cons_sublist_cons.mpr (List.sublist_append_left _ _),
        List.cons_sublist_cons.mpr (List.sublist_append_left _ _)⟩

/-- C6: when the turn-angle difference is exactly zero at every ordered
triple of the visited border sequence (exactly collinear waypoints), the
Border Sampler emits no intermediate point: every candidate is
classified aligned (0 < 0.01 threshold) and replaced by the lookahead,
the reference border comes back empty, and a border side built from it
consists of exactly the two endpoint points added outside the sampler. -/
theorem C6_sampler_collinear_empty (sd : ℝ) (M : OdrMap) (start : Waypoint)
    (endw : Option Waypoint)
    (HL : ∀ a b c, List.Sublist [a, b, c]
      (start.lborder :: ((M.chain start).map (fun w => w.lborder) ++
        (endw.map (fun w => w.lborder)).toList)) →
      turnAngle a b = turnAngle b c)
    (HR : ∀ a b c, List.Sublist [a, b, c]
      (start.rborder :: ((M.chain start).map (fun w => w.rborder) ++
        (endw.map (fun w => w.rborder)).toList)) →
      turnAngle a b = turnAngle b c) :
    createReferenceBorder sd M start endw = ([], []) ∧
    ∀ st pre succ sb eb,
      (sidePoints M st pre (createReferenceBorder sd M start endw).1 succ sb eb).1.length = 2 ∧
      (sidePoints M st pre (createReferenceBorder sd M start endw).2 succ sb eb).1.length = 2 := by
  obtain ⟨h1, h2, h3, h4⟩ := refLoop_all_aligned sd start.road_id start.section_id endw
    ((endw.map (fun w => w.lborder)).toList) ((endw.map (fun w => w.rborder)).toList)
    (M.chain start) start.lborder start.rborder none
    (fun a b c hs => is_aligned_of_angle_eq (HL a b c (by
      first
      | exact hs
      | simpa using hs)))
    (fun a b c hs => is_aligned_of_angle_eq (HR a b c (by
      first
      | exact hs
      | simpa using hs)))
  have hmain : createReferenceBorder sd M start endw = ([], []) := by
    simp only [createReferenceBorder]
    generalize hres : refLoop sd start.road_id start.section_id endw
      start.lborder start.rborder none (M.chain start) = res at h1 h2 h3 h4
    obtain ⟨lo, ro, lcu, rcu, cnds⟩ := res
    simp only at h1 h2 h3 h4
    subst h1
    subst h2
    cases cnds with
    | none => cases endw <;> rfl
    | some lr =>
      obtain ⟨lc, rc⟩ := lr
      cases endw with
      | none => rfl
      | some e =>
        have hsubL : List.Sublist [lcu, lc, e.lborder]
            (start.lborder :: ((M.chain start).map (fun w => w.lborder) ++ [e.lborder])) := by
          have := h3.append (List.Sublist.refl [e.lborder])
          first
          | exact this
          | simpa using this
        have hsubR : List.Sublist [rcu, rc, e.rborder]
            (start.rborder :: ((M.chain start).map (fun w => w.rborder) ++ [e.rborder])) := by
          have := h4.append (List.Sublist.refl [e.rborder])
          first
          | exact this
          | simpa using this
        have haL : is_aligned lcu lc e.lborder = true :=
          is_aligned_of_angle_eq (HL _ _ _ (by
            first
            | exact hsubL
            | simpa using hsubL))
        have haR : is_aligned rcu rc e.rborder = true :=
          is_aligned_of_angle_eq (HR _ _ _ (by
            first
            | exact hsubR
            | simpa using hsubR))
        simp [haL, haR]
  refine ⟨hmain, ?_⟩
  intro st pre succ sb eb
  rw [hmain]
  constructor <;> (cases pre <;> cases succ <;> rfl)

/-- Collinear sampler fixture: start waypoint of a straight border pair. -/
def colStart : Waypoint := { wp0 with lborder := ⟨0, 0, 0⟩, rborder := ⟨1, 0, 0⟩ }

/-- Second sampled waypoint on the same straight line. -/
def colW1 : Waypoint := { wp0 with lborder := ⟨0, 1, 0⟩, rborder := ⟨1, 1, 0⟩, loc := ⟨0, 1, 0⟩ }

/-- Third sampled waypoint on the same straight line. -/
def colW2 : Waypoint := { wp0 with lborder := ⟨0, 2, 0⟩, rborder := ⟨1, 2, 0⟩, loc := ⟨0, 2, 0⟩ }

/-- A snapshot whose sampler chain from colStart walks the straight
line through colW1 and colW2. -/
def colMap : OdrMap :=
  { trivMap with chain := fun w => if w = colStart then [colW1, colW2] else [] }

/-- Witness for C6 on the concrete collinear chain. -/
theorem C6_sampler_collinear_empty_witness :
    createReferenceBorder 1 colMap colStart none = ([], []) ∧
    (sidePoints colMap st0 none (createReferenceBorder 1 colMap colStart none).1 none
      loc0 loc0).1.length = 2 := by
  have hseqL : colStart.lborder :: ((colMap.chain colStart).map (fun w => w.lborder) ++
      ((none : Option Waypoint).map (fun w => w.lborder)).toList) =
      [⟨0, 0, 0⟩, ⟨0, 1, 0⟩, ⟨0, 2, 0⟩] := by rfl
  have hseqR : colStart.rborder :: ((colMap.chain colStart).map (fun w => w.rborder) ++
      ((none : Option Waypoint).map (fun w => w.rborder)).toList) =
      [⟨1, 0, 0⟩, ⟨1, 1, 0⟩, ⟨1, 2, 0⟩] := by rfl
  have h := C6_sampler_collinear_empty 1 colMap colStart none
    (by
      intro a b c hs
      rw [hseqL] at hs
      obtain ⟨ha, hb, hc⟩ := sublist_three hs
      subst ha
      subst hb
      subst hc
      unfold turnAngle
      norm_num)
    (by
      intro a b c hs
      rw [hseqR] at hs
      obtain ⟨ha, hb, hc⟩ := sublist_three hs
      subst ha
      subst hb
      subst hc
      unfold turnAngle
      norm_num)
  exact ⟨h.1, (h.2 st0 none none loc0 loc0).1⟩

/-! ## Helper lemmas on the mesh stores and point builders -/

lemma find?_map_set {α : Type} (l : List (ℕ × α)) (k : ℕ) (v : α)
    (h : (l.find? (fun kv => kv.1 = k)).isSome) :
    (l.map (fun kv => if kv.1 = k then (k, v) else kv)).find? (fun kv => kv.1 = k) =
      some (k, v) := by
  induction l with
  | nil => simp at h
  | cons kv tl ih =>
    by_cases hk : kv.1 = k
    · rw [List.map_cons, if_pos hk]
      exact List.find?_cons_of_pos _ (by simp)
    · have h2 : (tl.find? (fun kv => kv.1 = k)).isSome := by
        rwa [List.find?_cons_of_neg _ (by simp [hk])] at h
      rw [List.map_cons, if_neg hk, List.find?_cons_of_neg _ (by simp [hk])]
      exact ih h2

lemma find?_map_set_ne {α : Type} (l : List (ℕ × α)) (k k2 : ℕ) (v : α) (hne : k ≠ k2) :
    (l.map (fun kv => if kv.1 = k2 then (k2, v) else kv)).find? (fun kv => kv.1 = k) =
      l.find? (fun kv => kv.1 = k) := by
  have hne2 : ¬(k2 = k) := fun h2 => hne h2.symm
  induction l with
  | nil => rfl
  | cons kv tl ih =>
    by_cases hk : kv.1 = k2
    · rw [List.map_cons, if_pos hk, List.find?_cons_of_neg _ (by simp [hne2]),
        List.find?_cons_of_neg _ (by simp [hk, hne2])]
      exact ih
    · rw [List.map_cons, if_neg hk]
      by_cases hk2 : kv.1 = k
      · rw [List.find?_cons_of_pos _ (by simp [hk2]), List.find?_cons_of_pos _ (by simp [hk2])]
      · rw [List.find?_cons_of_neg _ (by simp [hk2]), List.find?_cons_of_neg _ (by simp [hk2])]
        exact ih

lemma alookup_aset_self {α : Type} (l : List (ℕ × α)) (k : ℕ) (v : α) :
    alookup (aset l k v) k = some v := by
  unfold aset
  split
  · next h =>
    rw [alookup, find?_map_set l k v h]
    rfl
  · next h =>
    rw [alookup, List.find?_append]
    have hn : l.find? (fun kv => kv.1 = k) = none :=
      Option.not_isSome_iff_eq_none.mp (by simpa using h)
    have hone : ([(k, v)].find? (fun kv => kv.1 = k)) = some (k, v) :=
      List.find?_cons_of_pos _ (by simp)
    simp [hn, hone]

lemma alookup_aset_ne {α : Type} (l : List (ℕ × α)) (k k2 : ℕ) (v : α) (hne : k ≠ k2) :
    alookup (aset l k2 v) k = alookup l k := by
  unfold aset
  split
  · rw [alookup, find?_map_set_ne l k k2 v hne, alookup]
  · have hne2 : ¬(k2 = k) := fun h2 => hne h2.symm
    rw [alookup, List.find?_append, alookup]
    have hone : ([(k2, v)].find? (fun kv => kv.1 = k)) = none := by
      rw [List.find?_cons_of_neg _ (by simp [hne2])]
      rfl
    cases hf : l.find? (fun kv => kv.1 = k) with
    | some x => simp [hf]
    | none => simp [hf, hone]

lemma addLinestring_lookup_self (m : L2Map) (ls : Linestring) :
    alookup (addLinestring m ls).2.linestrings ls.uid = some ls :=
  alookup_aset_self m.linestrings ls.uid ls

lemma addLinestring_lookup_ne (m : L2Map) (ls : Linestring) (k : ℕ) (h : k ≠ ls.uid) :
    alookup (addLinestring m ls).2.linestrings k = alookup m.linestrings k :=
  alookup_aset_ne m.linestrings k ls.uid ls h

lemma addLinestring_fst (m : L2Map) (ls : Linestring) : (addLinestring m ls).1 = ls.uid := rfl

lemma addLinestring_lookup_self2 (m : L2Map) (u : ℕ) (pts : List ℕ) (a : Option Attrs) :
    alookup (addLinestring m ⟨u, pts, a⟩).2.linestrings u = some ⟨u, pts, a⟩ :=
  alookup_aset_self m.linestrings u ⟨u, pts, a⟩

lemma addLinestring_lookup_ne2 (m : L2Map) (u : ℕ) (pts : List ℕ) (a : Option Attrs)
    (k : ℕ) (h : k ≠ u) :
    alookup (addLinestring m ⟨u, pts, a⟩).2.linestrings k = alookup m.linestrings k :=
  alookup_aset_ne m.linestrings k u ⟨u, pts, a⟩ h

lemma addPoint_fst (m : L2Map) (p : Point) : (addPoint m p).1 = p.uid := by
  unfold addPoint
  split <;> rfl

lemma addPoint_points_keys {m : L2Map} {p : Point} {k : ℕ}
    (h : (alookup (addPoint m p).2.points k).isSome) :
    (alookup m.points k).isSome ∨ k = p.uid := by
  unfold addPoint at h
  split at h
  · exact Or.inl h
  · by_cases hpk : k = p.uid
    · exact Or.inr hpk
    · left
      have hne3 : ¬(p.uid = k) := fun h2 => hpk h2.symm
      have hone : List.find? (fun kv => decide (kv.1 = k)) [(p.uid, p)] = none := by
        rw [List.find?_cons_of_neg _ (by simp [hne3])]
        rfl
      rw [alookup, List.find?_append] at h
      cases hf : m.points.find? (fun kv => kv.1 = k) with
      | some x => simp [alookup, hf]
      | none =>
        rw [hf, hone] at h
        simp at h

lemma addPoints_cons (m : L2Map) (p : Point) (ps : List Point) :
    addPoints m (p :: ps) =
      ((addPoint m p).1 :: (addPoints (addPoint m p).2 ps).1,
        (addPoints (addPoint m p).2 ps).2) := rfl

lemma addPoints_points_keys (ps : List Point) :
    ∀ (m : L2Map) (k : ℕ), (alookup (addPoints m ps).2.points k).isSome →
      (alookup m.points k).isSome ∨ k ∈ (addPoints m ps).1 := by
  induction ps with
  | nil => intro m k h; exact Or.inl h
  | cons p ps ih =>
    intro m k h
    rw [addPoints_cons] at h ⊢
    rcases ih (addPoint m p).2 k h with h1 | h2
    · rcases addPoint_points_keys h1 with h3 | h3
      · exact Or.inl h3
      · rw [addPoint_fst]
        exact Or.inr (h3 ▸ List.mem_cons_self _ _)
    · exact Or.inr (List.mem_cons_of_mem _ h2)

lemma addPoints_fst_length (ps : List Point) :
    ∀ m : L2Map, (addPoints m ps).1.length = ps.length := by
  induction ps with
  | nil => intro m; rfl
  | cons p ps ih =>
    intro m
    rw [addPoints_cons]
    simp [ih]

lemma createPoints_fst_length (M : OdrMap) (locs : List Location) :
    ∀ st : ConvState, (createPoints M st locs).1.length = locs.length := by
  induction locs with
  | nil => intro st; rfl
  | cons loc locs ih =>
    intro st
    simp only [createPoints]
    simp [ih]

lemma createPoints_map (M : OdrMap) (locs : List Location) :
    ∀ st : ConvState, (createPoints M st locs).2.map = st.map := by
  induction locs with
  | nil => intro st; rfl
  | cons loc locs ih =>
    intro st
    simp only [createPoints]
    rw [ih]
    rfl

lemma createPoints_uid (M : OdrMap) (locs : List Location) :
    ∀ st : ConvState, (createPoints M st locs).2.uid = st.uid + locs.length := by
  induction locs with
  | nil => intro st; rfl
  | cons loc locs ih =>
    intro st
    simp only [createPoints]
    rw [ih]
    simp [createPoint, nextUid]
    omega

lemma sidePoints_fst_length (M : OdrMap) (st : ConvState) (pre : Option Point)
    (ref : List Location) (succ : Option Point) (sb eb : Location) :
    (sidePoints M st pre ref succ sb eb).1.length = ref.length + 2 := by
  cases pre <;> cases succ <;>
    simp [sidePoints, createPoints_fst_length] <;> omega

lemma sidePoints_map (M : OdrMap) (st : ConvState) (pre : Option Point)
    (ref : List Location) (succ : Option Point) (sb eb : Location) :
    (sidePoints M st pre ref succ sb eb).2.map = st.map := by
  cases pre <;> cases succ <;> simp [sidePoints, createPoints_map, createPoint, nextUid]

lemma sidePoints_uid_ge (M : OdrMap) (st : ConvState) (pre : Option Point)
    (ref : List Location) (succ : Option Point) (sb eb : Location) :
    st.uid ≤ (sidePoints M st pre ref succ sb eb).2.uid := by
  cases pre <;> cases succ <;>
    simp [sidePoints, createPoints_uid, createPoint, nextUid] <;> omega

lemma finishLane_prev_lins (r s l : ℤ) (b : (List ℕ × List ℕ) × (ℕ × ℕ) × ConvState) :
    (finishLane r s l b).prev.lins = b.2.1 := rfl

lemma finishLane_prev_edges (r s l : ℤ) (b : (List ℕ × List ℕ) × (ℕ × ℕ) × ConvState) :
    (finishLane r s l b).prev.edges = b.1 := rfl

lemma finishLane_map_linestrings (r s l : ℤ) (b : (List ℕ × List ℕ) × (ℕ × ℕ) × ConvState) :
    (finishLane r s l b).st.map.linestrings = b.2.2.map.linestrings := rfl

lemma finishLane_map_points (r s l : ℤ) (b : (List ℕ × List ℕ) × (ℕ × ℕ) × ConvState) :
    (finishLane r s l b).st.map.points = b.2.2.map.points := rfl

/-! ## C7: point counts of the two borders of one sampling pass -/

/-- Characterisation of the fresh build: both border linestrings are
stored under the uids recorded in the loop locals, and their point
counts are the respective reference border lengths plus the two
endpoints. -/
lemma buildFresh_spec (M : OdrMap) (sw ew : Waypoint) (pre succ : Option Point × Option Point)
    (rb : List Location × List Location) (st : ConvState) :
    (alookup (buildFresh M sw ew pre succ rb st).2.2.map.linestrings
        (buildFresh M sw ew pre succ rb st).2.1.1).map (fun ls => ls.points.length) =
      some (rb.1.length + 2) ∧
    (alookup (buildFresh M sw ew pre succ rb st).2.2.map.linestrings
        (buildFresh M sw ew pre succ rb st).2.1.2).map (fun ls => ls.points.length) =
      some (rb.2.length + 2) := by
  obtain ⟨lp, st1, hsp1⟩ : ∃ lp st1, sidePoints M st pre.1 rb.1 succ.1
      (wpBorder sw "left") (wpBorder ew "left") = (lp, st1) := ⟨_, _, rfl⟩
  obtain ⟨rp, st2, hsp2⟩ : ∃ rp st2, sidePoints M st1 pre.2 rb.2 succ.2
      (wpBorder sw "right") (wpBorder ew "right") = (rp, st2) := ⟨_, _, rfl⟩
  obtain ⟨le, mp1, hap1⟩ : ∃ le mp1, addPoints st2.map lp = (le, mp1) := ⟨_, _, rfl⟩
  obtain ⟨re, mp2, hap2⟩ : ∃ re mp2, addPoints mp1 rp = (re, mp2) := ⟨_, _, rfl⟩
  have hlp : lp.length = rb.1.length + 2 := by
    have h := sidePoints_fst_length M st pre.1 rb.1 succ.1 (wpBorder sw "left") (wpBorder ew "left")
    rw [hsp1] at h
    exact h
  have hrp : rp.length = rb.2.length + 2 := by
    have h := sidePoints_fst_length M st1 pre.2 rb.2 succ.2
      (wpBorder sw "right") (wpBorder ew "right")
    rw [hsp2] at h
    exact h
  have hle : le.length = lp.length := by
    have h := addPoints_fst_length lp st2.map
    rw [hap1] at h
    exact h
  have hre : re.length = rp.length := by
    have h := addPoints_fst_length rp mp1
    rw [hap2] at h
    exact h
  simp only [buildFresh, hsp1, hsp2, hap1, hap2, createBorderLinestring, nextUid,
    addLinestring_fst]
  constructor
  · rw [addLinestring_lookup_ne2 _ _ _ _ _ (by omega), addLinestring_lookup_self2]
    simp [hle, hlp]
  · rw [addLinestring_lookup_self2]
    simp [hre, hrp]

/-- C7 amended: for a lane whose two borders are built by one sampling
pass (the fresh branch: first lane of a section or not adjacent to the
previous lane), the left and right linestrings contain respectively
(left reference border length + 2) and (right reference border length +
2) points; the two counts agree exactly when the sampler kept equally
many candidates on the two sides, which independent per-side alignment
decisions do not guarantee. -/
theorem C7_point_counts (sd : ℝ) (M : OdrMap) (road_id section_id lane_id : ℤ)
    (prev : Option Prev) (st : ConvState) (ew : Waypoint) (tail : List Waypoint)
    (hsucc : M.waypointSuccessors road_id section_id lane_id = ew :: tail)
    (hfresh : prev = none ∨ ∃ p, prev = some p ∧
      (isAdjacent M road_id section_id lane_id p.laneId).1 = false) :
    ∃ res : LaneOut, convertLane sd M road_id section_id lane_id prev st = .ok res ∧
      (alookup res.st.map.linestrings res.prev.lins.1).map (fun ls => ls.points.length) =
        some ((createReferenceBorder sd M (M.waypoint road_id section_id lane_id)
          (some ew)).1.length + 2) ∧
      (alookup res.st.map.linestrings res.prev.lins.2).map (fun ls => ls.points.length) =
        some ((createReferenceBorder sd M (M.waypoint road_id section_id lane_id)
          (some ew)).2.length + 2) := by
  have hbf := buildFresh_spec M (M.waypoint road_id section_id lane_id) ew
    (getLinkPoints M st road_id section_id lane_id).1
    (getLinkPoints M st road_id section_id lane_id).2
    (createReferenceBorder sd M (M.waypoint road_id section_id lane_id) (some ew)) st
  rcases hfresh with rfl | ⟨p, rfl, hadj⟩
  · refine ⟨finishLane road_id section_id lane_id
      (buildFresh M (M.waypoint road_id section_id lane_id) ew
        (getLinkPoints M st road_id section_id lane_id).1
        (getLinkPoints M st road_id section_id lane_id).2
        (createReferenceBorder sd M (M.waypoint road_id section_id lane_id) (some ew)) st),
      ?_, ?_, ?_⟩
    · simp only [convertLane, hsucc]
    · rw [finishLane_map_linestrings, finishLane_prev_lins]
      exact hbf.1
    · rw [finishLane_map_linestrings, finishLane_prev_lins]
      exact hbf.2
  · refine ⟨finishLane road_id section_id lane_id
      (buildFresh M (M.waypoint road_id section_id lane_id) ew
        (getLinkPoints M st road_id section_id lane_id).1
        (getLinkPoints M st road_id section_id lane_id).2
        (createReferenceBorder sd M (M.waypoint road_id section_id lane_id) (some ew)) st),
      ?_, ?_, ?_⟩
    · simp only [convertLane, hsucc, hadj, if_pos]
    · rw [finishLane_map_linestrings, finishLane_prev_lins]
      exact hbf.1
    · rw [finishLane_map_linestrings, finishLane_prev_lins]
      exact hbf.2

/-! ## Concrete sampler evaluation for the C7 counterexample -/

lemma refLoop_nil (sd : ℝ) (rid sid : ℤ) (endw : Option Waypoint) (lcur rcur : Location)
    (cands : Option (Location × Location)) :
    refLoop sd rid sid endw lcur rcur cands [] = ⟨[], [], lcur, rcur, cands⟩ := rfl

lemma refLoop_cons_init (sd : ℝ) (rid sid : ℤ) (endw : Option Waypoint) (lcur rcur : Location)
    (w : Waypoint) (rest : List Waypoint)
    (hrs : w.road_id = rid ∧ w.section_id = sid)
    (hd : ¬(match endw with | some e => locDist w.loc e.loc < sd | none => False)) :
    refLoop sd rid sid endw lcur rcur none (w :: rest) =
      refLoop sd rid sid endw lcur rcur (some (w.lborder, w.rborder)) rest := by
  simp only [refLoop, if_pos hrs, if_neg hd]

lemma refLoop_cons_step (sd : ℝ) (rid sid : ℤ) (endw : Option Waypoint) (lcur rcur : Location)
    (lc rc : Location) (w : Waypoint) (rest : List Waypoint)
    (hrs : w.road_id = rid ∧ w.section_id = sid)
    (hd : ¬(match endw with | some e => locDist w.loc e.loc < sd | none => False)) :
    refLoop sd rid sid endw lcur rcur (some (lc, rc)) (w :: rest) =
      ⟨(if is_aligned lcur lc w.lborder then [] else [lc]) ++
        (refLoop sd rid sid endw (if is_aligned lcur lc w.lborder then lcur else lc)
          (if is_aligned rcur rc w.rborder then rcur else rc)
          (some (w.lborder, w.rborder)) rest).lout,
       (if is_aligned rcur rc w.rborder then [] else [rc]) ++
        (refLoop sd rid sid endw (if is_aligned lcur lc w.lborder then lcur else lc)
          (if is_aligned rcur rc w.rborder then rcur else rc)
          (some (w.lborder, w.rborder)) rest).rout,
       (refLoop sd rid sid endw (if is_aligned lcur lc w.lborder then lcur else lc)
          (if is_aligned rcur rc w.rborder then rcur else rc)
          (some (w.lborder, w.rborder)) rest).lcur,
       (refLoop sd rid sid endw (if is_aligned lcur lc w.lborder then lcur else lc)
          (if is_aligned rcur rc w.rborder then rcur else rc)
          (some (w.lborder, w.rborder)) rest).rcur,
       (refLoop sd rid sid endw (if is_aligned lcur lc w.lborder then lcur else lc)
          (if is_aligned rcur rc w.rborder then rcur else rc)
          (some (w.lborder, w.rborder)) rest).cands⟩ := by
  simp only [refLoop, if_pos hrs, if_neg hd]

lemma atan2_zero_neg_one : atan2 0 (-1) = Real.pi := by
  unfold atan2
  rw [if_neg (by norm_num), if_pos (by norm_num), if_pos (by norm_num)]
  norm_num [Real.arctan_zero]

lemma atan2_neg_one_zero : atan2 (-1) 0 = -(Real.pi / 2) := by
  unfold atan2
  rw [if_neg (by norm_num), if_neg (by norm_num), if_neg (by norm_num), if_pos (by norm_num)]

/-- The right-border triple of the counterexample turns by 3 pi / 2,
far above the threshold, so it is not aligned. -/
lemma cex_not_aligned : is_aligned ⟨1, 0, 0⟩ ⟨1, 1, 0⟩ ⟨2, 1, 0⟩ = false := by
  have h1 : turnAngle ⟨1, 0, 0⟩ ⟨1, 1, 0⟩ = atan2 0 (-1) := by
    unfold turnAngle
    norm_num
  have h2 : turnAngle ⟨1, 1, 0⟩ ⟨2, 1, 0⟩ = atan2 (-1) 0 := by
    unfold turnAngle
    norm_num
  have hpi := Real.pi_gt_three
  have hcond : ¬(|Real.pi - -(Real.pi / 2)| < 1 / 100) := by
    rw [sub_neg_eq_add, abs_of_pos (by linarith)]
    intro hc
    linarith
  rw [is_aligned_eq_ite, h1, h2, atan2_zero_neg_one, atan2_neg_one_zero, if_neg hcond]

lemma cex_aligned_left : is_aligned ⟨0, 0, 0⟩ ⟨0, 1, 0⟩ ⟨0, 2, 0⟩ = true :=
  is_aligned_of_angle_eq (by unfold turnAngle; norm_num)

lemma cex_aligned_left_end : is_aligned ⟨0, 0, 0⟩ ⟨0, 2, 0⟩ ⟨0, 4, 0⟩ = true :=
  is_aligned_of_angle_eq (by unfold turnAngle; norm_num)

lemma cex_aligned_right_end : is_aligned ⟨1, 1, 0⟩ ⟨2, 1, 0⟩ ⟨3, 1, 0⟩ = true :=
  is_aligned_of_angle_eq (by unfold turnAngle; norm_num)

lemma cex_dist_w1 : ¬(locDist ⟨0, 1, 0⟩ ⟨0, 9, 0⟩ < 1) := by
  have h : locDist ⟨0, 1, 0⟩ ⟨0, 9, 0⟩ = Real.sqrt 64 := by
    unfold locDist
    norm_num
  rw [h, show (64 : ℝ) = 8 ^ 2 by norm_num, Real.sqrt_sq (by norm_num : (0 : ℝ) ≤ 8)]
  norm_num

lemma cex_dist_w2 : ¬(locDist ⟨0, 2, 0⟩ ⟨0, 9, 0⟩ < 1) := by
  have h : locDist ⟨0, 2, 0⟩ ⟨0, 9, 0⟩ = Real.sqrt 49 := by
    unfold locDist
    norm_num
  rw [h, show (49 : ℝ) = 7 ^ 2 by norm_num, Real.sqrt_sq (by norm_num : (0 : ℝ) ≤ 7)]
  norm_num

/-- C7 fixture: start waypoint of segment (0, 0, -1). -/
def cexStart : Waypoint := { wp0 with lane_id := -1, lborder := ⟨0, 0, 0⟩, rborder := ⟨1, 0, 0⟩ }

/-- C7 fixture: first sampled waypoint, both sides straight so far. -/
def cexW1 : Waypoint :=
  { wp0 with lane_id := -1, lborder := ⟨0, 1, 0⟩, rborder := ⟨1, 1, 0⟩, loc := ⟨0, 1, 0⟩ }

/-- C7 fixture: second sampled waypoint, the left border stays straight
while the right border turns by a right angle. -/
def cexW2 : Waypoint :=
  { wp0 with lane_id := -1, lborder := ⟨0, 2, 0⟩, rborder := ⟨2, 1, 0⟩, loc := ⟨0, 2, 0⟩ }

/-- C7 fixture: the end waypoint, collinear with the final buffers on
both sides, placed far enough that the distance check never breaks the
loop. -/
def cexEnd : Waypoint :=
  { wp0 with lane_id := -1, lborder := ⟨0, 4, 0⟩, rborder := ⟨3, 1, 0⟩, loc := ⟨0, 9, 0⟩ }

/-- C7 fixture: snapshot exposing the chain and the single successor. -/
def cexMap : OdrMap :=
  { trivMap with
    waypoint := fun _ _ _ => cexStart
    waypointSuccessors := fun _ _ _ => [cexEnd]
    chain := fun w => if w = cexStart then [cexW1, cexW2] else [] }

/-- Evaluation of the sampler on the counterexample chain: the left
reference border is empty and the right one keeps a single point, so the
two sides of the same sampling pass have different lengths. -/
lemma cex_ref : createReferenceBorder 1 cexMap cexStart (some cexEnd) = ([], [⟨1, 1, 0⟩]) := by
  have hchain : cexMap.chain cexStart = [cexW1, cexW2] := rfl
  have h1 : refLoop 1 cexStart.road_id cexStart.section_id (some cexEnd)
      cexStart.lborder cexStart.rborder none [cexW1, cexW2] =
      refLoop 1 0 0 (some cexEnd) ⟨0, 0, 0⟩ ⟨1, 0, 0⟩ (some (⟨0, 1, 0⟩, ⟨1, 1, 0⟩)) [cexW2] :=
    refLoop_cons_init 1 0 0 (some cexEnd) ⟨0, 0, 0⟩ ⟨1, 0, 0⟩ cexW1 [cexW2] ⟨rfl, rfl⟩
      cex_dist_w1
  have h2 : refLoop 1 0 0 (some cexEnd) ⟨0, 0, 0⟩ ⟨1, 0, 0⟩
      (some (⟨0, 1, 0⟩, ⟨1, 1, 0⟩)) [cexW2] =
      ⟨[], [⟨1, 1, 0⟩], ⟨0, 0, 0⟩, ⟨1, 1, 0⟩, some (⟨0, 2, 0⟩, ⟨2, 1, 0⟩)⟩ := by
    rw [refLoop_cons_step 1 0 0 (some cexEnd) ⟨0, 0, 0⟩ ⟨1, 0, 0⟩ ⟨0, 1, 0⟩ ⟨1, 1, 0⟩ cexW2 []
      ⟨rfl, rfl⟩ cex_dist_w2]
    have hl : is_aligned ⟨0, 0, 0⟩ ⟨0, 1, 0⟩ cexW2.lborder = true := cex_aligned_left
    have hr : is_aligned ⟨1, 0, 0⟩ ⟨1, 1, 0⟩ cexW2.rborder = false := cex_not_aligned
    rw [hl, hr]
    simp [refLoop_nil]
    exact ⟨rfl, rfl⟩
  simp only [createReferenceBorder, hchain, h1, h2]
  have hel : is_aligned ⟨0, 0, 0⟩ ⟨0, 2, 0⟩ cexEnd.lborder = true := cex_aligned_left_end
  have her : is_aligned ⟨1, 1, 0⟩ ⟨2, 1, 0⟩ cexEnd.rborder = true := cex_aligned_right_end
  rw [hel, her]
  simp

/-- C7 counterexample: on the concrete snapshot, one single sampling
pass (fresh build of lane (0,0,-1)) produces a lanelet whose left border
linestring has 2 points while its right border linestring has 3: the
two buffers drop candidates independently, so equal point counts are not
an invariant of one sampling pass. -/
theorem C7_same_pass_point_counts_cex :
    ∃ res : LaneOut, convertLane 1 cexMap 0 0 (-1) none st0 = .ok res ∧
      (alookup res.st.map.linestrings res.prev.lins.1).map (fun ls => ls.points.length) =
        some 2 ∧
      (alookup res.st.map.linestrings res.prev.lins.2).map (fun ls => ls.points.length) =
        some 3 := by
  have hsucc : cexMap.waypointSuccessors 0 0 (-1) = [cexEnd] := rfl
  have hwp : cexMap.waypoint 0 0 (-1) = cexStart := rfl
  have hbf := buildFresh_spec cexMap (cexMap.waypoint 0 0 (-1)) cexEnd
    (getLinkPoints cexMap st0 0 0 (-1)).1 (getLinkPoints cexMap st0 0 0 (-1)).2
    (createReferenceBorder 1 cexMap (cexMap.waypoint 0 0 (-1)) (some cexEnd)) st0
  rw [hwp, cex_ref] at hbf
  refine ⟨finishLane 0 0 (-1) (buildFresh cexMap (cexMap.waypoint 0 0 (-1)) cexEnd
    (getLinkPoints cexMap st0 0 0 (-1)).1 (getLinkPoints cexMap st0 0 0 (-1)).2
    (createReferenceBorder 1 cexMap (cexMap.waypoint 0 0 (-1)) (some cexEnd)) st0),
    ?_, ?_, ?_⟩
  · simp only [convertLane, hsucc]
  · rw [finishLane_map_linestrings, finishLane_prev_lins, hwp, cex_ref]
    simpa using hbf.1
  · rw [finishLane_map_linestrings, finishLane_prev_lins, hwp, cex_ref]
    simpa using hbf.2

/-- Witness for the amended C7 at the same concrete snapshot. -/
theorem C7_point_counts_witness :
    ∃ res : LaneOut, convertLane 1 cexMap 0 0 (-1) none st0 = .ok res ∧
      (alookup res.st.map.linestrings res.prev.lins.1).map (fun ls => ls.points.length) =
        some ((createReferenceBorder 1 cexMap (cexMap.waypoint 0 0 (-1))
          (some cexEnd)).1.length + 2) ∧
      (alookup res.st.map.linestrings res.prev.lins.2).map (fun ls => ls.points.length) =
        some ((createReferenceBorder 1 cexMap (cexMap.waypoint 0 0 (-1))
          (some cexEnd)).2.length + 2) :=
  C7_point_counts 1 cexMap 0 0 (-1) none st0 cexEnd [] rfl (Or.inl rfl)

/-! ## C3: border sharing between adjacent lanes -/

/-- Characterisation of the shared build for a negative lane id: the
right border reuses the previous lane left border (same Linestring uid
and same point uid list), and the only points inserted into the mesh are
those of the freshly built left border. -/
lemma buildShared_neg_spec (M : OdrMap) (lane_id : ℤ) (sw ew : Waypoint)
    (pre succ : Option Point × Option Point) (rb : List Location × List Location)
    (p : Prev) (st : ConvState) (hneg : lane_id < 0) :
    (buildShared M lane_id sw ew pre succ rb p st).2.1.2 = p.lins.1 ∧
    (buildShared M lane_id sw ew pre succ rb p st).1.2 = p.edges.1 ∧
    (∀ k, (alookup (buildShared M lane_id sw ew pre succ rb p st).2.2.map.points k).isSome →
      (alookup st.map.points k).isSome ∨
        k ∈ (buildShared M lane_id sw ew pre succ rb p st).1.1) := by
  obtain ⟨lp, st1, hsp1⟩ : ∃ lp st1, sidePoints M st pre.1 rb.1 succ.1
      (wpBorder sw "left") (wpBorder ew "left") = (lp, st1) := ⟨_, _, rfl⟩
  obtain ⟨le, mp1, hap1⟩ : ∃ le mp1, addPoints st1.map lp = (le, mp1) := ⟨_, _, rfl⟩
  have hst1map : st1.map = st.map := by
    have h := sidePoints_map M st pre.1 rb.1 succ.1 (wpBorder sw "left") (wpBorder ew "left")
    rw [hsp1] at h
    exact h
  simp only [buildShared, if_pos hneg, hsp1, hap1, createBorderLinestring, nextUid,
    addLinestring_fst]
  refine ⟨by trivial, by trivial, ?_⟩
  intro k hk
  have hk2 : (alookup (addPoints st1.map lp).2.points k).isSome = true := by
    rw [hap1]
    exact hk
  rcases addPoints_points_keys lp st1.map k hk2 with h1 | h2
  · rw [hst1map] at h1
    exact Or.inl h1
  · rw [hap1] at h2
    exact Or.inr h2

/-- Characterisation of the shared build for a positive lane id other
than 1: the left border reuses the previous lane right border Linestring
unchanged, and only right border points are inserted. -/
lemma buildShared_posOther_spec (M : OdrMap) (lane_id : ℤ) (sw ew : Waypoint)
    (pre succ : Option Point × Option Point) (rb : List Location × List Location)
    (p : Prev) (st : ConvState) (hpos : ¬lane_id < 0) (h1 : ¬lane_id = 1) :
    (buildShared M lane_id sw ew pre succ rb p st).2.1.1 = p.lins.2 ∧
    (buildShared M lane_id sw ew pre succ rb p st).1.1 = p.edges.2 ∧
    (∀ k, (alookup (buildShared M lane_id sw ew pre succ rb p st).2.2.map.points k).isSome →
      (alookup st.map.points k).isSome ∨
        k ∈ (buildShared M lane_id sw ew pre succ rb p st).1.2) := by
  obtain ⟨rp, st1, hsp1⟩ : ∃ rp st1, sidePoints M st pre.2 rb.2 succ.2
      (wpBorder sw "right") (wpBorder ew "right") = (rp, st1) := ⟨_, _, rfl⟩
  obtain ⟨re, mp1, hap1⟩ : ∃ re mp1, addPoints st1.map rp = (re, mp1) := ⟨_, _, rfl⟩
  have hst1map : st1.map = st.map := by
    have h := sidePoints_map M st pre.2 rb.2 succ.2 (wpBorder sw "right") (wpBorder ew "right")
    rw [hsp1] at h
    exact h
  simp only [buildShared, if_neg hpos, if_neg h1, hsp1, hap1, createBorderLinestring,
    nextUid, addLinestring_fst]
  refine ⟨by trivial, by trivial, ?_⟩
  intro k hk
  have hk2 : (alookup (addPoints st1.map rp).2.points k).isSome = true := by
    rw [hap1]
    exact hk
  rcases addPoints_points_keys rp st1.map k hk2 with h2 | h2
  · rw [hst1map] at h2
    exact Or.inl h2
  · rw [hap1] at h2
    exact Or.inr h2

/-- Characterisation of the shared build at the sign crossing
lane_id = 1: the left border is a freshly allocated Linestring (its uid
exceeds the incoming counter) whose point list is the previous lane left
border reversed. -/
lemma buildShared_pos1_spec (M : OdrMap) (sw ew : Waypoint)
    (pre succ : Option Point × Option Point) (rb : List Location × List Location)
    (p : Prev) (st : ConvState) :
    (buildShared M 1 sw ew pre succ rb p st).1.1 = p.edges.1.reverse ∧
    st.uid < (buildShared M 1 sw ew pre succ rb p st).2.1.1 ∧
    (alookup (buildShared M 1 sw ew pre succ rb p st).2.2.map.linestrings
        (buildShared M 1 sw ew pre succ rb p st).2.1.1).map (fun ls => ls.points) =
      some p.edges.1.reverse := by
  obtain ⟨rp, st1, hsp1⟩ : ∃ rp st1, sidePoints M st pre.2 rb.2 succ.2
      (wpBorder sw "right") (wpBorder ew "right") = (rp, st1) := ⟨_, _, rfl⟩
  obtain ⟨re, mp1, hap1⟩ : ∃ re mp1, addPoints st1.map rp = (re, mp1) := ⟨_, _, rfl⟩
  have hst1uid : st.uid ≤ st1.uid := by
    have h := sidePoints_uid_ge M st pre.2 rb.2 succ.2 (wpBorder sw "right") (wpBorder ew "right")
    rw [hsp1] at h
    exact h
  simp only [buildShared, hsp1, hap1, createBorderLinestring, nextUid]
  have hone : ((1 : ℤ) = 1) = True := by norm_num
  have hlt : ¬((1 : ℤ) < 0) := by norm_num
  simp only [hone, if_true, if_neg hlt, addLinestring_fst]
  refine ⟨by trivial, by omega, ?_⟩
  rw [addLinestring_lookup_ne2 _ _ _ _ _ (by omega), addLinestring_lookup_self2]
  rfl

/-- C3: for a lane classified adjacent to the previously processed lane
of the same section: a negative lane id shares the previous left border
Linestring verbatim as its right border (same uid, same point uid list)
and inserts points only for its fresh left border; a lane id above 1
shares the previous right border Linestring verbatim as its left border
and inserts points only for its fresh right border; lane id 1 gets a new
left border Linestring (a fresh uid, beyond every uid already stored)
whose point list is the previous lane left border reversed. -/
theorem C3_adjacent_border_sharing (sd : ℝ) (M : OdrMap)
    (road_id section_id lane_id : ℤ) (p : Prev) (st : ConvState)
    (ew : Waypoint) (tail : List Waypoint)
    (hsucc : M.waypointSuccessors road_id section_id lane_id = ew :: tail)
    (hadj : (isAdjacent M road_id section_id lane_id p.laneId).1 = true)
    (hkeys : ∀ k ∈ st.map.linestrings.map Prod.fst, k ≤ st.uid) :
    ∃ res : LaneOut, convertLane sd M road_id section_id lane_id (some p) st = .ok res ∧
      (lane_id < 0 →
        res.prev.lins.2 = p.lins.1 ∧ res.prev.edges.2 = p.edges.1 ∧
        (∀ k, (alookup res.st.map.points k).isSome →
          (alookup st.map.points k).isSome ∨ k ∈ res.prev.edges.1)) ∧
      (1 < lane_id →
        res.prev.lins.1 = p.lins.2 ∧ res.prev.edges.1 = p.edges.2 ∧
        (∀ k, (alookup res.st.map.points k).isSome →
          (alookup st.map.points k).isSome ∨ k ∈ res.prev.edges.2)) ∧
      (lane_id = 1 →
        res.prev.edges.1 = p.edges.1.reverse ∧
        res.prev.lins.1 ∉ st.map.linestrings.map Prod.fst ∧
        (alookup res.st.map.linestrings res.prev.lins.1).map (fun ls => ls.points) =
          some p.edges.1.reverse) := by
  have hnadj : ¬((isAdjacent M road_id section_id lane_id p.laneId).1 = false) := by
    simp [hadj]
  refine ⟨finishLane road_id section_id lane_id
    (buildShared M lane_id (M.waypoint road_id section_id lane_id) ew
      (getLinkPoints M st road_id section_id lane_id).1
      (getLinkPoints M st road_id section_id lane_id).2
      (createReferenceBorder sd M (M.waypoint road_id section_id lane_id) (some ew)) p st),
    ?_, ?_, ?_, ?_⟩
  · simp only [convertLane, hsucc, if_neg hnadj]
  · intro hneg
    obtain ⟨h1, h2, h3⟩ := buildShared_neg_spec M lane_id
      (M.waypoint road_id section_id lane_id) ew
      (getLinkPoints M st road_id section_id lane_id).1
      (getLinkPoints M st road_id section_id lane_id).2
      (createReferenceBorder sd M (M.waypoint road_id section_id lane_id) (some ew))
      p st hneg
    rw [finishLane_prev_lins, finishLane_prev_edges, finishLane_map_points]
    exact ⟨h1, h2, h3⟩
  · intro hgt
    obtain ⟨h1, h2, h3⟩ := buildShared_posOther_spec M lane_id
      (M.waypoint road_id section_id lane_id) ew
      (getLinkPoints M st road_id section_id lane_id).1
      (getLinkPoints M st road_id section_id lane_id).2
      (createReferenceBorder sd M (M.waypoint road_id section_id lane_id) (some ew))
      p st (by omega) (by omega)
    rw [finishLane_prev_lins, finishLane_prev_edges, finishLane_map_points]
    exact ⟨h1, h2, h3⟩
  · intro hone
    subst hone
    obtain ⟨h1, h2, h3⟩ := buildShared_pos1_spec M
      (M.waypoint road_id section_id 1) ew
      (getLinkPoints M st road_id section_id 1).1
      (getLinkPoints M st road_id section_id 1).2
      (createReferenceBorder sd M (M.waypoint road_id section_id 1) (some ew)) p st
    rw [finishLane_prev_lins, finishLane_prev_edges, finishLane_map_linestrings]
    refine ⟨h1, ?_, h3⟩
    intro hmem
    have := hkeys _ hmem
    omega

/-- Witness for C3: lane -2 adjacent to the previously processed lane -1
on the concrete snapshot. -/
theorem C3_adjacent_border_sharing_witness :
    ∃ res : LaneOut, convertLane 1 cexMap 0 0 (-2)
        (some ⟨([10, 11], [12, 13]), (20, 21), -1⟩) ⟨30, L2Map.empty, []⟩ = .ok res ∧
      ((-2 : ℤ) < 0 →
        res.prev.lins.2 = 20 ∧ res.prev.edges.2 = [10, 11] ∧
        (∀ k, (alookup res.st.map.points k).isSome →
          (alookup (⟨30, L2Map.empty, []⟩ : ConvState).map.points k).isSome ∨
            k ∈ res.prev.edges.1)) ∧
      ((1 : ℤ) < -2 →
        res.prev.lins.1 = 21 ∧ res.prev.edges.1 = [12, 13] ∧
        (∀ k, (alookup res.st.map.points k).isSome →
          (alookup (⟨30, L2Map.empty, []⟩ : ConvState).map.points k).isSome ∨
            k ∈ res.prev.edges.2)) ∧
      ((-2 : ℤ) = 1 →
        res.prev.edges.1 = [10, 11].reverse ∧
        res.prev.lins.1 ∉ (⟨30, L2Map.empty, []⟩ : ConvState).map.linestrings.map Prod.fst ∧
        (alookup res.st.map.linestrings res.prev.lins.1).map (fun ls => ls.points) =
          some [10, 11].reverse) :=
  C3_adjacent_border_sharing 1 cexMap 0 0 (-2) ⟨([10, 11], [12, 13]), (20, 21), -1⟩
    ⟨30, L2Map.empty, []⟩ cexEnd [] rfl (by decide) (by simp [L2Map.empty])

end Odr2Lanelet2
